import Mathlib

/-! Shallow embedding of `src/ari_sxn_common/common_bluesky.py`.

The Python module defines two alias tables (dictionaries mapping a
canonical bluesky function name to a list of alias strings) and two
classes, `PlanCollector` and `PlanCollectorSub`, which copy function
references from the external modules `bluesky.plans` and
`bluesky.plan_stubs` onto instance attributes.

Modelling choices:
* A Python module is a map from function name to the docstring of that
  function (`PyModule := String → Option String`); the two bluesky
  modules are external, so they are parameters of the development.
* A function object is identified by the module it came from, its name
  there and its docstring (`PyFunc`).  Reference identity of functions
  corresponds to equality of these tags, because `getattr` on a module
  always returns the one function object stored under that name.
* An instance `__dict__` is an association list kept in insertion
  order; `setattr` overwrites in place (keeping the original position)
  when the key exists and appends otherwise, exactly the CPython dict
  update rule (`pySet`).
* Object identity of instances is modelled by a numeric id `oid`
  supplied to the constructor; two separate constructions are given
  different ids, as two Python allocations are distinct objects.  The
  `parent` back-reference stored in the child object is modelled as
  `SubValue.parentRef oid` to keep the data well-founded.
* Failures (AttributeError from `getattr`, IndexError from list
  indexing and from indexing the result of `split`) are modelled with
  `Except PyError`.
-/

set_option linter.unusedVariables false

/-- Tag naming which external module a function came from. -/
inductive ModTag where
  | plans
  | plan_stubs
deriving DecidableEq

/-- The dotted name of an external module, used in error messages. -/
def moduleName : ModTag → String
  | .plans => "bluesky.plans"
  | .plan_stubs => "bluesky.plan_stubs"

/-- A function object of an external module: the module it lives on,
its name there, and its docstring.  Equality of these tags models
reference identity, because a module stores one function per name. -/
structure PyFunc where
  module : ModTag
  fname : String
  doc : String
deriving DecidableEq

/-- An external module: a partial map from function name to docstring. -/
def PyModule : Type := String → Option String

/-- The failures the Python code can raise: AttributeError (from
`getattr` on a module or on an instance) and IndexError (from `[0]` on
an empty alias list or `[1]` on a split with no separator). -/
inductive PyError where
  | attributeError (obj attrName : String)
  | indexError
deriving DecidableEq

/-- Decidable equality for `Except`, so that concrete runs of the
embedded code can be checked by `decide`. -/
instance {ε α : Type} [DecidableEq ε] [DecidableEq α] : DecidableEq (Except ε α) := fun x y =>
  match x, y with
  | .ok a, .ok b =>
    if h : a = b then isTrue (by rw [h]) else isFalse (by intro hc; cases hc; exact h rfl)
  | .error a, .error b =>
    if h : a = b then isTrue (by rw [h]) else isFalse (by intro hc; cases hc; exact h rfl)
  | .ok _, .error _ => isFalse (by intro hc; cases hc)
  | .error _, .ok _ => isFalse (by intro hc; cases hc)

/-- Model of `getattr(module, attr)`: returns the function object or
raises AttributeError when the name is absent. -/
def getattrF (tag : ModTag) (m : PyModule) (attr : String) : Except PyError PyFunc :=
  match m attr with
  | some d => .ok { module := tag, fname := attr, doc := d }
  | none => .error (.attributeError (moduleName tag) attr)

/-- Values stored in the `__dict__` of a `PlanCollectorSub` instance:
imported functions, the `name` string, and the `parent` back-reference
(modelled by the object id of the parent, see the module comment). -/
inductive SubValue where
  | func (f : PyFunc)
  | str (s : String)
  | parentRef (oid : Nat)
deriving DecidableEq

/-- A `PlanCollectorSub` instance is its `__dict__`. -/
structure PlanCollectorSub where
  dict : List (String × SubValue)
deriving DecidableEq

/-- Values stored in the `__dict__` of a `PlanCollector` instance:
imported functions, the `name` string, and the nested
`PlanCollectorSub` object bound under `relative`. -/
inductive Value where
  | func (f : PyFunc)
  | str (s : String)
  | sub (s : PlanCollectorSub)
deriving DecidableEq

/-- A `PlanCollector` instance: its object id and its `__dict__`. -/
structure PlanCollector where
  oid : Nat
  dict : List (String × Value)
deriving DecidableEq

/-- CPython dict/attribute update: overwrite in place when the key is
present (keeping its position), append otherwise. -/
def pySet {α : Type} (d : List (String × α)) (k : String) (v : α) : List (String × α) :=
  match d with
  | [] => [(k, v)]
  | (k', v') :: rest => if k' = k then (k, v) :: rest else (k', v') :: pySet rest k v

/-- Dict/attribute lookup on an association list. -/
def pyLookup {α : Type} (d : List (String × α)) (k : String) : Option α :=
  match d with
  | [] => none
  | (k', v') :: rest => if k' = k then some v' else pyLookup rest k

/-- Model of Python `s.startswith(pre)`. -/
def pyStartsWith (s pre : String) : Bool :=
  List.isPrefixOf pre.data s.data

/-- The characters after the first underscore, when there is one. -/
def afterFirstUnderscore : List Char → Option (List Char)
  | [] => none
  | c :: rest => if c = '_' then some rest else afterFirstUnderscore rest

/-- Model of Python `s.split('_', 1)[1]`: everything after the first
underscore; IndexError when `s` has no underscore. -/
def splitRest (s : String) : Except PyError String :=
  match afterFirstUnderscore s.data with
  | some cs => .ok (String.mk cs)
  | none => .error .indexError

/-- Model of Python list indexing `l[i]` with IndexError on overflow. -/
def pyIndex (l : List String) (i : Nat) : Except PyError String :=
  match l[i]? with
  | some s => .ok s
  | none => .error .indexError

/-- Split a character list at every occurrence of `sep`, following
Python `str.split(sep)` semantics (the empty string splits to a single
empty piece). -/
def splitOnChar (sep : Char) : List Char → List (List Char)
  | [] => [[]]
  | c :: rest =>
    if c = sep then [] :: splitOnChar sep rest
    else
      match splitOnChar sep rest with
      | [] => [[c]]
      | h :: t => (c :: h) :: t

/-- Model of Python `s.split('\n')`. -/
def pySplitLines (s : String) : List String :=
  (splitOnChar (Char.ofNat 10) s.data).map String.mk

/-- Model of Python `s.strip()` (whitespace stripped from both ends). -/
def pyStrip (s : String) : String :=
  String.mk (((s.data.dropWhile Char.isWhitespace).reverse.dropWhile Char.isWhitespace).reverse)

/-- Drop `pat` from the front of a list when it is a prefix, returning
the remainder. -/
def stripPrefixChars : List Char → List Char → Option (List Char)
  | [], l => some l
  | _ :: _, [] => none
  | p :: ps, c :: cs => if c = p then stripPrefixChars ps cs else none

/-- Replace every occurrence of `pat` (non-overlapping, left to right)
by `rep` on a character list; the engine behind Python `str.replace`.
Recursion is driven by a fuel argument so that the definition is
structural; fuel equal to the list length always suffices because a
non-empty matched pattern consumes at least one character.  Both
patterns used by `PlanCollector.__str__` are non-empty, so the guard
for an empty pattern (a no-op here, where Python would interleave the
replacement) is never exercised. -/
def replaceFuel (pat rep : List Char) : Nat → List Char → List Char
  | _, [] => []
  | 0, l => l
  | fuel + 1, c :: rest =>
    match stripPrefixChars pat (c :: rest) with
    | some suffix =>
      if pat.isEmpty then c :: replaceFuel pat rep fuel rest
      else rep ++ replaceFuel pat rep fuel suffix
    | none => c :: replaceFuel pat rep fuel rest

/-- Model of Python `s.replace(pat, rep)` for non-empty `pat`. -/
def pyReplace (s pat rep : String) : String :=
  String.mk (replaceFuel pat.data rep.data s.data.length s.data)

/-- Model of the docstring-to-description computation shared by both
`__str__` methods:
`doc.split('\n')[0].strip() if doc.split('\n')[0] else doc.split('\n')[1].strip()`.
The stripped first line when the first line is non-empty, otherwise the
stripped second line; IndexError when the docstring is the empty string
(no second line to fall back to). -/
def descriptionOf (doc : String) : Except PyError String :=
  match pySplitLines doc with
  | [] => .error .indexError
  | l0 :: rest =>
    if l0 = "" then
      match rest with
      | l1 :: _ => .ok (pyStrip l1)
      | [] => .error .indexError
    else .ok (pyStrip l0)

/-- Rendering of a `SubValue` inside an f-string.  For strings this is
the string itself; for the other cases Python would produce a repr such
as `<function mv at 0x...>` containing a memory address, which is not
representable here, so a fixed stand-in text is used.  No claim depends
on the non-string renderings. -/
def formatSubValue : SubValue → String
  | .func f => "<function " ++ f.fname ++ ">"
  | .str s => s
  | .parentRef _ => "<PlanCollector object>"

/-- The `__doc__` of a stored sub-value.  Only function values carry a
modelled docstring; for the bookkeeping values Python would fall back
to a builtin class docstring, but both `__str__` methods filter the
bookkeeping keys out before reading `__doc__`, so that branch is
unreachable on constructed objects and is modelled as a failure. -/
def docOfSubValue : SubValue → Except PyError String
  | .func f => .ok f.doc
  | .str _ => .error (.attributeError "value" "__doc__")
  | .parentRef _ => .error (.attributeError "value" "__doc__")

/-- Rendering of a `Value` inside an f-string; see `formatSubValue`. -/
def formatValue : Value → String
  | .func f => "<function " ++ f.fname ++ ">"
  | .str s => s
  | .sub _ => "<PlanCollectorSub object>"

/-- The `__doc__` of a stored value; see `docOfSubValue`. -/
def docOfValue : Value → Except PyError String
  | .func f => .ok f.doc
  | .str _ => .error (.attributeError "value" "__doc__")
  | .sub _ => .error (.attributeError "value" "__doc__")

/-- Attribute read on a `PlanCollectorSub` dict. -/
def pyGetattrSub (d : List (String × SubValue)) (k : String) : Except PyError SubValue :=
  match pyLookup d k with
  | some v => .ok v
  | none => .error (.attributeError "PlanCollectorSub" k)

/-- Attribute read on a `PlanCollector` dict. -/
def pyGetattrCol (d : List (String × Value)) (k : String) : Except PyError Value :=
  match pyLookup d k with
  | some v => .ok v
  | none => .error (.attributeError "PlanCollector" k)

/-- The `parent.name` read performed by `PlanCollectorSub.__init__`
inside `f'{parent.name}_{name}'`.  When `PlanCollectorSub` is built by
`PlanCollector.__init__`, the parent dict always holds `name` (it is
the first attribute ever set on the parent), so the default branch is
unreachable there. -/
def parentNameString (parentDict : List (String × Value)) : String :=
  match pyLookup parentDict "name" with
  | some v => formatValue v
  | none => ""

/-- The `setattr` loop of `PlanCollectorSub.__init__` over
`methods_to_import.items()`. -/
def setMethods : List (String × PyFunc) → List (String × SubValue) → List (String × SubValue)
  | [], d => d
  | (n, f) :: rest, d => setMethods rest (pySet d n (SubValue.func f))

/-- `PlanCollectorSub.__init__(methods_to_import, name, parent)`:
bind every method, then set `self.name = f'{parent.name}_{name}'` and
`self.parent = parent`. -/
def PlanCollectorSub.init (methods_to_import : List (String × PyFunc)) (name : String)
    (parentDict : List (String × Value)) (parentOid : Nat) : PlanCollectorSub :=
  let d0 := setMethods methods_to_import []
  let d1 := pySet d0 "name" (SubValue.str (parentNameString parentDict ++ "_" ++ name))
  let d2 := pySet d1 "parent" (SubValue.parentRef parentOid)
  { dict := d2 }

/-- The loop body of `PlanCollectorSub.__str__`: skip the bookkeeping
keys, append one line per bound plan with its docstring description. -/
def subStrLoop : List (String × SubValue) → String → Except PyError String
  | [], acc => .ok acc
  | (n, v) :: rest, acc =>
    if n = "name" ∨ n = "parent" then subStrLoop rest acc
    else
      match docOfSubValue v with
      | .error e => .error e
      | .ok doc =>
        match descriptionOf doc with
        | .error e => .error e
        | .ok d => subStrLoop rest (acc ++ "\n    " ++ n ++ ":    " ++ d)

/-- `PlanCollectorSub.__str__`. -/
def PlanCollectorSub.str (s : PlanCollectorSub) : Except PyError String :=
  match pyGetattrSub s.dict "name" with
  | .error e => .error e
  | .ok v => subStrLoop s.dict ("\n" ++ formatSubValue v ++ ":")

/-- `PlanCollectorSub.__dir__`: every `__dict__` key except the
bookkeeping ones. -/
def PlanCollectorSub.dir (s : PlanCollectorSub) : List String :=
  (s.dict.map Prod.fst).filter (fun k => decide (k ∉ (["name", "parent"] : List String)))

/-- The condition of `PlanCollector.__init__` routing a plan stub into
the relative table: `plan_stub.startswith('rel_') or plan_stub == 'mvr'`. -/
def stubIsRelative (c : String) : Bool :=
  pyStartsWith c "rel_" || decide (c = "mvr")

/-- The condition routing a plan into the relative table:
`plan.startswith('rel_')`. -/
def planIsRelative (c : String) : Bool :=
  pyStartsWith c "rel_"

/-- One alias-table entry: canonical name and alias list. -/
abbrev Entry := String × List String

/-- A collector `__dict__` under construction. -/
abbrev Dict := List (String × Value)

/-- The `relative_plans_to_import` side table. -/
abbrev RelTable := List (String × PyFunc)

/-- One iteration of the plan-stub loop of `PlanCollector.__init__`:
either derive the stripped name from the first alias and record the
function in the relative side table, or bind the function directly
under the first alias. -/
def stubStep (stubsMod : PyModule) (st : Dict × RelTable) (e : Entry) :
    Except PyError (Dict × RelTable) :=
  if stubIsRelative e.1 then
    match pyIndex e.2 0 with
    | .error er => .error er
    | .ok a0 =>
      match splitRest a0 with
      | .error er => .error er
      | .ok nm =>
        match getattrF .plan_stubs stubsMod e.1 with
        | .error er => .error er
        | .ok f => .ok (st.1, pySet st.2 nm f)
  else
    match pyIndex e.2 0 with
    | .error er => .error er
    | .ok a0 =>
      match getattrF .plan_stubs stubsMod e.1 with
      | .error er => .error er
      | .ok f => .ok (pySet st.1 a0 (Value.func f), st.2)

/-- One iteration of the plan loop of `PlanCollector.__init__`; as
`stubStep` but reading `bluesky.plans` and without the `mvr` special
case. -/
def planStep (plansMod : PyModule) (st : Dict × RelTable) (e : Entry) :
    Except PyError (Dict × RelTable) :=
  if planIsRelative e.1 then
    match pyIndex e.2 0 with
    | .error er => .error er
    | .ok a0 =>
      match splitRest a0 with
      | .error er => .error er
      | .ok nm =>
        match getattrF .plans plansMod e.1 with
        | .error er => .error er
        | .ok f => .ok (st.1, pySet st.2 nm f)
  else
    match pyIndex e.2 0 with
    | .error er => .error er
    | .ok a0 =>
      match getattrF .plans plansMod e.1 with
      | .error er => .error er
      | .ok f => .ok (pySet st.1 a0 (Value.func f), st.2)

/-- The plan-stub loop, aborting at the first failing entry. -/
def runStubs (m : PyModule) (st : Dict × RelTable) :
    List Entry → Except PyError (Dict × RelTable)
  | [] => .ok st
  | e :: rest =>
    match stubStep m st e with
    | .error er => .error er
    | .ok st' => runStubs m st' rest

/-- The plan loop, aborting at the first failing entry. -/
def runPlans (m : PyModule) (st : Dict × RelTable) :
    List Entry → Except PyError (Dict × RelTable)
  | [] => .ok st
  | e :: rest =>
    match planStep m st e with
    | .error er => .error er
    | .ok st' => runPlans m st' rest

/-- The tail of `PlanCollector.__init__`: build the child
`PlanCollectorSub` from the relative side table (with the object under
construction as parent) and bind it under `relative`. -/
def mkFinal (st : Dict × RelTable) (oid : Nat) : PlanCollector :=
  let sub := PlanCollectorSub.init st.2 "relative" st.1 oid
  { oid := oid, dict := pySet st.1 "relative" (Value.sub sub) }

/-- `PlanCollector.__init__(plans_to_import, plan_stubs_to_import, name)`:
set `self.name = name`, run the plan-stub loop, then the plan loop,
then attach the `relative` child.  The object id models allocation. -/
def PlanCollector.init (plansMod stubsMod : PyModule)
    (plans_to_import plan_stubs_to_import : List Entry)
    (name : String) (oid : Nat) : Except PyError PlanCollector :=
  match runStubs stubsMod ([("name", Value.str name)], []) plan_stubs_to_import with
  | .error er => .error er
  | .ok st1 =>
    match runPlans plansMod st1 plans_to_import with
    | .error er => .error er
    | .ok st2 => .ok (mkFinal st2 oid)

/-- The `if plan.__dict__:` test of `PlanCollector.__str__`.  Imported
module functions are modelled with an empty attribute dict; a nested
`PlanCollectorSub` is tested for a non-empty `__dict__`; a raw string
has no `__dict__` in Python, and that key is filtered out before the
test, so the branch is modelled as a failure. -/
def hasAttrDictNonempty : Value → Except PyError Bool
  | .func _ => .ok false
  | .sub s => .ok (decide (s.dict ≠ []))
  | .str _ => .error (.attributeError "str" "__dict__")

/-- `plan.__str__()` for a stored value; on constructed objects this is
only ever reached for the nested `PlanCollectorSub`. -/
def renderValueStr : Value → Except PyError String
  | .sub s => PlanCollectorSub.str s
  | v => .ok (formatValue v)

/-- The loop body of `PlanCollector.__str__`: skip bookkeeping keys;
for a value with attributes, splice in its indented rendering with the
parent-name prefix removed; otherwise append one description line. -/
def colStrLoop (selfName : String) : List (String × Value) → String → Except PyError String
  | [], acc => .ok acc
  | (n, v) :: rest, acc =>
    if n = "name" ∨ n = "parent" then colStrLoop selfName rest acc
    else
      match hasAttrDictNonempty v with
      | .error e => .error e
      | .ok true =>
        match renderValueStr v with
        | .error e => .error e
        | .ok sv =>
          colStrLoop selfName rest
            (acc ++ "\n    " ++ pyReplace (pyReplace sv "\n" "\n    ") (selfName ++ "_") "")
      | .ok false =>
        match docOfValue v with
        | .error e => .error e
        | .ok doc =>
          match descriptionOf doc with
          | .error e => .error e
          | .ok d => colStrLoop selfName rest (acc ++ "\n    " ++ n ++ ":    " ++ d)

/-- `PlanCollector.__str__`. -/
def PlanCollector.str (c : PlanCollector) : Except PyError String :=
  match pyGetattrCol c.dict "name" with
  | .error e => .error e
  | .ok v => colStrLoop (formatValue v) c.dict ("\n" ++ formatValue v ++ ":")

/-- `PlanCollector.__dir__`: every `__dict__` key except `name`. -/
def PlanCollector.dir (c : PlanCollector) : List String :=
  (c.dict.map Prod.fst).filter (fun k => decide (k ∉ (["name"] : List String)))

/-- The `_plan_stubs_to_import` table of the source module. -/
def _plan_stubs_to_import : List Entry :=
  [("mv", ["move", "mv"]), ("mvr", ["relative_move", "mv"])]

/-- The `_plans_to_import` table of the source module. -/
def _plans_to_import : List Entry :=
  [("count", ["count"]),
   ("scan", ["scan"]),
   ("rel_scan", ["relative_scan", "rel_scan"]),
   ("grid_scan", ["grid_scan"]),
   ("rel_grid_scan", ["relative_grid_scan", "rel_grid_scan"]),
   ("list_scan", ["list_scan"]),
   ("rel_list_scan", ["relative_list_scan", "rel_list_scan"]),
   ("list_grid_scan", ["list_grid_scan"]),
   ("rel_list_grid_scan", ["relative_list_grid_scan", "rel_list_grid_scan"]),
   ("log_scan", ["log_scan"]),
   ("rel_log_scan", ["relative_log_scan", "rel_log_scan"]),
   ("spiral", ["spiral"]),
   ("rel_spiral", ["relative_spiral", "rel_spiral"]),
   ("spiral_fermat", ["spiral_fermat"]),
   ("rel_spiral_fermat", ["relative_spiral_fermat", "rel_spiral_fermat"]),
   ("spiral_square", ["spiral_square"]),
   ("rel_spiral_square", ["relative_spiral_square", "rel_spiral_square"])]

/-- The function attributes of a collector dict (key and function). -/
def funcBindings (d : Dict) : List (String × PyFunc) :=
  d.filterMap (fun p =>
    match p.2 with
    | Value.func f => some (p.1, f)
    | _ => none)

/-- The function attributes of a child dict (key and function). -/
def subFuncBindings (d : List (String × SubValue)) : List (String × PyFunc) :=
  d.filterMap (fun p =>
    match p.2 with
    | SubValue.func f => some (p.1, f)
    | _ => none)

/-- Attribute lookup through the `relative` child of a collector. -/
def relSubLookup (c : PlanCollector) (k : String) : Option SubValue :=
  match pyLookup c.dict "relative" with
  | some (Value.sub s) => pyLookup s.dict k
  | _ => none

/-- The dict of the `relative` child of a collector, when present. -/
def relSubDict (c : PlanCollector) : Option (List (String × SubValue)) :=
  match pyLookup c.dict "relative" with
  | some (Value.sub s) => some s.dict
  | _ => none

/-- Modelled from the spec wording for claim C5: the first non-empty
line of a docstring.  This is the spec-side notion that the code-side
`descriptionOf` is compared against. -/
def firstNonEmptyLine (doc : String) : Option String :=
  (pySplitLines doc).find? (fun l => decide (l ≠ ""))

/-- A demonstration stand-in for `bluesky.plans`, holding exactly the
canonical plan names of the shipped table. -/
def demoPlansModule : PyModule := fun n =>
  if n ∈ _plans_to_import.map Prod.fst then some "Plan doc." else none

/-- A demonstration stand-in for `bluesky.plan_stubs`. -/
def demoStubsModule : PyModule := fun n =>
  if n ∈ (["mv", "mvr"] : List String) then some "Stub doc." else none

/-- A module providing no functions at all. -/
def emptyModule : PyModule := fun _ => none


/-- Helper: full evaluation of `PlanCollector.__init__` on the two
shipped alias tables, for arbitrary external modules that provide the
nineteen configured canonical names.  Every claim about the shipped
configuration reduces to this equation. -/
theorem shippedInit (plansMod stubsMod : PyModule) (nm : String) (oid : Nat)
    (dmv dmvr dcount dscan drscan dgrid drgrid dlist drlist dlgs drlgs dlog drlog
      dsp drsp dspf drspf dsps drsps : String)
    (hmv : stubsMod "mv" = some dmv)
    (hmvr : stubsMod "mvr" = some dmvr)
    (hcount : plansMod "count" = some dcount)
    (hscan : plansMod "scan" = some dscan)
    (hrscan : plansMod "rel_scan" = some drscan)
    (hgrid : plansMod "grid_scan" = some dgrid)
    (hrgrid : plansMod "rel_grid_scan" = some drgrid)
    (hlist : plansMod "list_scan" = some dlist)
    (hrlist : plansMod "rel_list_scan" = some drlist)
    (hlgs : plansMod "list_grid_scan" = some dlgs)
    (hrlgs : plansMod "rel_list_grid_scan" = some drlgs)
    (hlog : plansMod "log_scan" = some dlog)
    (hrlog : plansMod "rel_log_scan" = some drlog)
    (hsp : plansMod "spiral" = some dsp)
    (hrsp : plansMod "rel_spiral" = some drsp)
    (hspf : plansMod "spiral_fermat" = some dspf)
    (hrspf : plansMod "rel_spiral_fermat" = some drspf)
    (hsps : plansMod "spiral_square" = some dsps)
    (hrsps : plansMod "rel_spiral_square" = some drsps) :
    PlanCollector.init plansMod stubsMod _plans_to_import _plan_stubs_to_import nm oid =
    .ok { oid := oid,
          dict :=
            [("name", Value.str nm),
             ("move", Value.func { module := .plan_stubs, fname := "mv", doc := dmv }),
             ("count", Value.func { module := .plans, fname := "count", doc := dcount }),
             ("scan", Value.func { module := .plans, fname := "scan", doc := dscan }),
             ("grid_scan", Value.func { module := .plans, fname := "grid_scan", doc := dgrid }),
             ("list_scan", Value.func { module := .plans, fname := "list_scan", doc := dlist }),
             ("list_grid_scan", Value.func { module := .plans, fname := "list_grid_scan", doc := dlgs }),
             ("log_scan", Value.func { module := .plans, fname := "log_scan", doc := dlog }),
             ("spiral", Value.func { module := .plans, fname := "spiral", doc := dsp }),
             ("spiral_fermat", Value.func { module := .plans, fname := "spiral_fermat", doc := dspf }),
             ("spiral_square", Value.func { module := .plans, fname := "spiral_square", doc := dsps }),
             ("relative", Value.sub { dict :=
               [("move", SubValue.func { module := .plan_stubs, fname := "mvr", doc := dmvr }),
                ("scan", SubValue.func { module := .plans, fname := "rel_scan", doc := drscan }),
                ("grid_scan", SubValue.func { module := .plans, fname := "rel_grid_scan", doc := drgrid }),
                ("list_scan", SubValue.func { module := .plans, fname := "rel_list_scan", doc := drlist }),
                ("list_grid_scan", SubValue.func { module := .plans, fname := "rel_list_grid_scan", doc := drlgs }),
                ("log_scan", SubValue.func { module := .plans, fname := "rel_log_scan", doc := drlog }),
                ("spiral", SubValue.func { module := .plans, fname := "rel_spiral", doc := drsp }),
                ("spiral_fermat", SubValue.func { module := .plans, fname := "rel_spiral_fermat", doc := drspf }),
                ("spiral_square", SubValue.func { module := .plans, fname := "rel_spiral_square", doc := drsps }),
                ("name", SubValue.str (nm ++ "_" ++ "relative")),
                ("parent", SubValue.parentRef oid)] })] } := by
  simp [PlanCollector.init, runStubs, runPlans, stubStep, planStep, stubIsRelative,
    planIsRelative, pyStartsWith, pyIndex, splitRest, afterFirstUnderscore, getattrF,
    pySet, mkFinal, PlanCollectorSub.init, setMethods, parentNameString, pyLookup,
    formatValue, _plans_to_import, _plan_stubs_to_import, hmv, hmvr, hcount, hscan,
    hrscan, hgrid, hrgrid, hlist, hrlist, hlgs, hrlgs, hlog, hrlog, hsp, hrsp, hspf,
    hrspf, hsps, hrsps]

/-- C1: for every non-relative entry (canonical name, aliases) of the
shipped tables, the constructed collector has an attribute named by the
first alias that is reference-identical to the function of the same
canonical name on the corresponding source module. -/
theorem c1_first_alias_binds_module_function (plansMod stubsMod : PyModule)
    (nm : String) (oid : Nat)
    (dmv dmvr dcount dscan drscan dgrid drgrid dlist drlist dlgs drlgs dlog drlog
      dsp drsp dspf drspf dsps drsps : String)
    (hmv : stubsMod "mv" = some dmv)
    (hmvr : stubsMod "mvr" = some dmvr)
    (hcount : plansMod "count" = some dcount)
    (hscan : plansMod "scan" = some dscan)
    (hrscan : plansMod "rel_scan" = some drscan)
    (hgrid : plansMod "grid_scan" = some dgrid)
    (hrgrid : plansMod "rel_grid_scan" = some drgrid)
    (hlist : plansMod "list_scan" = some dlist)
    (hrlist : plansMod "rel_list_scan" = some drlist)
    (hlgs : plansMod "list_grid_scan" = some dlgs)
    (hrlgs : plansMod "rel_list_grid_scan" = some drlgs)
    (hlog : plansMod "log_scan" = some dlog)
    (hrlog : plansMod "rel_log_scan" = some drlog)
    (hsp : plansMod "spiral" = some dsp)
    (hrsp : plansMod "rel_spiral" = some drsp)
    (hspf : plansMod "spiral_fermat" = some dspf)
    (hrspf : plansMod "rel_spiral_fermat" = some drspf)
    (hsps : plansMod "spiral_square" = some dsps)
    (hrsps : plansMod "rel_spiral_square" = some drsps) :
    ∃ c, PlanCollector.init plansMod stubsMod _plans_to_import _plan_stubs_to_import
        nm oid = .ok c ∧
      (∀ e ∈ _plan_stubs_to_import, stubIsRelative e.1 = false →
        ∃ f, getattrF .plan_stubs stubsMod e.1 = .ok f ∧
          pyLookup c.dict (e.2.headD "") = some (Value.func f)) ∧
      (∀ e ∈ _plans_to_import, planIsRelative e.1 = false →
        ∃ f, getattrF .plans plansMod e.1 = .ok f ∧
          pyLookup c.dict (e.2.headD "") = some (Value.func f)) := by
  refine ⟨_, shippedInit plansMod stubsMod nm oid dmv dmvr dcount dscan drscan dgrid
    drgrid dlist drlist dlgs drlgs dlog drlog dsp drsp dspf drspf dsps drsps hmv hmvr
    hcount hscan hrscan hgrid hrgrid hlist hrlist hlgs hrlgs hlog hrlog hsp hrsp hspf
    hrspf hsps hrsps, ?_, ?_⟩
  · intro e he hdir
    fin_cases he
    · exact ⟨{ module := .plan_stubs, fname := "mv", doc := dmv },
        by simp [getattrF, hmv], by simp [pyLookup]⟩
    · exact absurd hdir (by decide)
  · intro e he hdir
    fin_cases he
    · exact ⟨{ module := .plans, fname := "count", doc := dcount },
        by simp [getattrF, hcount], by simp [pyLookup]⟩
    · exact ⟨{ module := .plans, fname := "scan", doc := dscan },
        by simp [getattrF, hscan], by simp [pyLookup]⟩
    · exact absurd hdir (by decide)
    · exact ⟨{ module := .plans, fname := "grid_scan", doc := dgrid },
        by simp [getattrF, hgrid], by simp [pyLookup]⟩
    · exact absurd hdir (by decide)
    · exact ⟨{ module := .plans, fname := "list_scan", doc := dlist },
        by simp [getattrF, hlist], by simp [pyLookup]⟩
    · exact absurd hdir (by decide)
    · exact ⟨{ module := .plans, fname := "list_grid_scan", doc := dlgs },
        by simp [getattrF, hlgs], by simp [pyLookup]⟩
    · exact absurd hdir (by decide)
    · exact ⟨{ module := .plans, fname := "log_scan", doc := dlog },
        by simp [getattrF, hlog], by simp [pyLookup]⟩
    · exact absurd hdir (by decide)
    · exact ⟨{ module := .plans, fname := "spiral", doc := dsp },
        by simp [getattrF, hsp], by simp [pyLookup]⟩
    · exact absurd hdir (by decide)
    · exact ⟨{ module := .plans, fname := "spiral_fermat", doc := dspf },
        by simp [getattrF, hspf], by simp [pyLookup]⟩
    · exact absurd hdir (by decide)
    · exact ⟨{ module := .plans, fname := "spiral_square", doc := dsps },
        by simp [getattrF, hsps], by simp [pyLookup]⟩
    · exact absurd hdir (by decide)

/-- Witness for C1: concrete modules providing all configured names. -/
theorem c1_first_alias_binds_module_function_witness :
    ∃ c, PlanCollector.init demoPlansModule demoStubsModule _plans_to_import
        _plan_stubs_to_import "plan" 0 = .ok c ∧
      (∀ e ∈ _plan_stubs_to_import, stubIsRelative e.1 = false →
        ∃ f, getattrF .plan_stubs demoStubsModule e.1 = .ok f ∧
          pyLookup c.dict (e.2.headD "") = some (Value.func f)) ∧
      (∀ e ∈ _plans_to_import, planIsRelative e.1 = false →
        ∃ f, getattrF .plans demoPlansModule e.1 = .ok f ∧
          pyLookup c.dict (e.2.headD "") = some (Value.func f)) :=
  c1_first_alias_binds_module_function demoPlansModule demoStubsModule "plan" 0
    "Stub doc." "Stub doc." "Plan doc." "Plan doc." "Plan doc." "Plan doc." "Plan doc."
    "Plan doc." "Plan doc." "Plan doc." "Plan doc." "Plan doc." "Plan doc." "Plan doc."
    "Plan doc." "Plan doc." "Plan doc." "Plan doc." "Plan doc."
    (by decide) (by decide) (by decide) (by decide) (by decide) (by decide) (by decide)
    (by decide) (by decide) (by decide) (by decide) (by decide) (by decide) (by decide)
    (by decide) (by decide) (by decide) (by decide) (by decide)

/-- C2: every relative-flagged entry of the shipped tables is exposed
only under the `relative` child, under its stripped first alias, and
appears neither under its canonical name nor under its first alias as
a direct attribute of the collector; in particular the `rel_scan`
entry yields no top-level `rel_scan` or `relative_scan` attribute
while `relative.scan` is the `bluesky.plans.rel_scan` function. -/
theorem c2_relative_segregation (plansMod stubsMod : PyModule)
    (nm : String) (oid : Nat)
    (dmv dmvr dcount dscan drscan dgrid drgrid dlist drlist dlgs drlgs dlog drlog
      dsp drsp dspf drspf dsps drsps : String)
    (hmv : stubsMod "mv" = some dmv)
    (hmvr : stubsMod "mvr" = some dmvr)
    (hcount : plansMod "count" = some dcount)
    (hscan : plansMod "scan" = some dscan)
    (hrscan : plansMod "rel_scan" = some drscan)
    (hgrid : plansMod "grid_scan" = some dgrid)
    (hrgrid : plansMod "rel_grid_scan" = some drgrid)
    (hlist : plansMod "list_scan" = some dlist)
    (hrlist : plansMod "rel_list_scan" = some drlist)
    (hlgs : plansMod "list_grid_scan" = some dlgs)
    (hrlgs : plansMod "rel_list_grid_scan" = some drlgs)
    (hlog : plansMod "log_scan" = some dlog)
    (hrlog : plansMod "rel_log_scan" = some drlog)
    (hsp : plansMod "spiral" = some dsp)
    (hrsp : plansMod "rel_spiral" = some drsp)
    (hspf : plansMod "spiral_fermat" = some dspf)
    (hrspf : plansMod "rel_spiral_fermat" = some drspf)
    (hsps : plansMod "spiral_square" = some dsps)
    (hrsps : plansMod "rel_spiral_square" = some drsps) :
    ∃ c, PlanCollector.init plansMod stubsMod _plans_to_import _plan_stubs_to_import
        nm oid = .ok c ∧
      (∀ e ∈ _plan_stubs_to_import, stubIsRelative e.1 = true →
        pyLookup c.dict e.1 = none ∧ pyLookup c.dict (e.2.headD "") = none ∧
        ∃ n f, splitRest (e.2.headD "") = .ok n ∧
          getattrF .plan_stubs stubsMod e.1 = .ok f ∧
          relSubLookup c n = some (SubValue.func f)) ∧
      (∀ e ∈ _plans_to_import, planIsRelative e.1 = true →
        pyLookup c.dict e.1 = none ∧ pyLookup c.dict (e.2.headD "") = none ∧
        ∃ n f, splitRest (e.2.headD "") = .ok n ∧
          getattrF .plans plansMod e.1 = .ok f ∧
          relSubLookup c n = some (SubValue.func f)) ∧
      (pyLookup c.dict "rel_scan" = none ∧ pyLookup c.dict "relative_scan" = none ∧
        relSubLookup c "scan" =
          some (SubValue.func { module := .plans, fname := "rel_scan", doc := drscan })) := by
  refine ⟨_, shippedInit plansMod stubsMod nm oid dmv dmvr dcount dscan drscan dgrid
    drgrid dlist drlist dlgs drlgs dlog drlog dsp drsp dspf drspf dsps drsps hmv hmvr
    hcount hscan hrscan hgrid hrgrid hlist hrlist hlgs hrlgs hlog hrlog hsp hrsp hspf
    hrspf hsps hrsps, ?_, ?_, ?_⟩
  · intro e he hrel
    fin_cases he
    · exact absurd hrel (by decide)
    · exact ⟨by simp [pyLookup], by simp [pyLookup],
        "move", { module := .plan_stubs, fname := "mvr", doc := dmvr },
        by decide, by simp [getattrF, hmvr], by simp [relSubLookup, pyLookup]⟩
  · intro e he hrel
    fin_cases he
    · exact absurd hrel (by decide)
    · exact absurd hrel (by decide)
    · exact ⟨by simp [pyLookup], by simp [pyLookup],
        "scan", { module := .plans, fname := "rel_scan", doc := drscan },
        by decide, by simp [getattrF, hrscan], by simp [relSubLookup, pyLookup]⟩
    · exact absurd hrel (by decide)
    · exact ⟨by simp [pyLookup], by simp [pyLookup],
        "grid_scan", { module := .plans, fname := "rel_grid_scan", doc := drgrid },
        by decide, by simp [getattrF, hrgrid], by simp [relSubLookup, pyLookup]⟩
    · exact absurd hrel (by decide)
    · exact ⟨by simp [pyLookup], by simp [pyLookup],
        "list_scan", { module := .plans, fname := "rel_list_scan", doc := drlist },
        by decide, by simp [getattrF, hrlist], by simp [relSubLookup, pyLookup]⟩
    · exact absurd hrel (by decide)
    · exact ⟨by simp [pyLookup], by simp [pyLookup],
        "list_grid_scan", { module := .plans, fname := "rel_list_grid_scan", doc := drlgs },
        by decide, by simp [getattrF, hrlgs], by simp [relSubLookup, pyLookup]⟩
    · exact absurd hrel (by decide)
    · exact ⟨by simp [pyLookup], by simp [pyLookup],
        "log_scan", { module := .plans, fname := "rel_log_scan", doc := drlog },
        by decide, by simp [getattrF, hrlog], by simp [relSubLookup, pyLookup]⟩
    · exact absurd hrel (by decide)
    · exact ⟨by simp [pyLookup], by simp [pyLookup],
        "spiral", { module := .plans, fname := "rel_spiral", doc := drsp },
        by decide, by simp [getattrF, hrsp], by simp [relSubLookup, pyLookup]⟩
    · exact absurd hrel (by decide)
    · exact ⟨by simp [pyLookup], by simp [pyLookup],
        "spiral_fermat", { module := .plans, fname := "rel_spiral_fermat", doc := drspf },
        by decide, by simp [getattrF, hrspf], by simp [relSubLookup, pyLookup]⟩
    · exact absurd hrel (by decide)
    · exact ⟨by simp [pyLookup], by simp [pyLookup],
        "spiral_square", { module := .plans, fname := "rel_spiral_square", doc := drsps },
        by decide, by simp [getattrF, hrsps], by simp [relSubLookup, pyLookup]⟩
  · exact ⟨by simp [pyLookup], by simp [pyLookup], by simp [relSubLookup, pyLookup]⟩
/-- Witness for C2 with concrete modules. -/
theorem c2_relative_segregation_witness :
    ∃ c, PlanCollector.init demoPlansModule demoStubsModule _plans_to_import
        _plan_stubs_to_import "plan" 0 = .ok c ∧
      (∀ e ∈ _plan_stubs_to_import, stubIsRelative e.1 = true →
        pyLookup c.dict e.1 = none ∧ pyLookup c.dict (e.2.headD "") = none ∧
        ∃ n f, splitRest (e.2.headD "") = .ok n ∧
          getattrF .plan_stubs demoStubsModule e.1 = .ok f ∧
          relSubLookup c n = some (SubValue.func f)) ∧
      (∀ e ∈ _plans_to_import, planIsRelative e.1 = true →
        pyLookup c.dict e.1 = none ∧ pyLookup c.dict (e.2.headD "") = none ∧
        ∃ n f, splitRest (e.2.headD "") = .ok n ∧
          getattrF .plans demoPlansModule e.1 = .ok f ∧
          relSubLookup c n = some (SubValue.func f)) ∧
      (pyLookup c.dict "rel_scan" = none ∧ pyLookup c.dict "relative_scan" = none ∧
        relSubLookup c "scan" =
          some (SubValue.func { module := .plans, fname := "rel_scan", doc := "Plan doc." })) :=
  c2_relative_segregation demoPlansModule demoStubsModule "plan" 0
    "Stub doc." "Stub doc." "Plan doc." "Plan doc." "Plan doc." "Plan doc." "Plan doc."
    "Plan doc." "Plan doc." "Plan doc." "Plan doc." "Plan doc." "Plan doc." "Plan doc."
    "Plan doc." "Plan doc." "Plan doc." "Plan doc." "Plan doc."
    (by decide) (by decide) (by decide) (by decide) (by decide) (by decide) (by decide)
    (by decide) (by decide) (by decide) (by decide) (by decide) (by decide) (by decide)
    (by decide) (by decide) (by decide) (by decide) (by decide)

/-- Counterexample for C3: the plan-stub entry with canonical name
`mvr` is placed into the `relative` child (under the stripped alias
`move`, with no direct attribute), although `mvr` does not start with
the `rel_` marker. -/
theorem c3_counterexample :
    (PlanCollector.init demoPlansModule demoStubsModule []
        [("mvr", ["relative_move", "mv"])] "plan" 0).map
        (fun c => (relSubLookup c "move", pyLookup c.dict "relative_move",
          pyLookup c.dict "mvr")) =
      .ok (some (SubValue.func { module := .plan_stubs, fname := "mvr", doc := "Stub doc." }),
        none, none) ∧
    pyStartsWith "mvr" "rel_" = false := by decide

/-- C3 as amended: a plan entry is routed into the `relative` child
exactly when its canonical name starts with `rel_`; a plan-stub entry
is routed exactly when its canonical name starts with `rel_` or is the
string `mvr`.  Stated over single-entry tables, which isolates one
entry from overwrites by others. -/
theorem c3_amended_routing (plansMod stubsMod : PyModule) (cn : String) (as : List String)
    (a0 d nm : String) (oid : Nat)
    (ha0 : pyIndex as 0 = .ok a0) :
    ((stubsMod cn = some d) →
      (∀ n, stubIsRelative cn = true → splitRest a0 = .ok n →
        n ≠ "name" → n ≠ "parent" →
        (PlanCollector.init plansMod stubsMod [] [(cn, as)] nm oid).map
            (fun col => (funcBindings col.dict, (relSubDict col).map subFuncBindings)) =
          .ok ([], some [(n, { module := .plan_stubs, fname := cn, doc := d })])) ∧
      (stubIsRelative cn = false → a0 ≠ "relative" →
        (PlanCollector.init plansMod stubsMod [] [(cn, as)] nm oid).map
            (fun col => (funcBindings col.dict, (relSubDict col).map subFuncBindings)) =
          .ok ([(a0, { module := .plan_stubs, fname := cn, doc := d })], some []))) ∧
    ((plansMod cn = some d) →
      (∀ n, planIsRelative cn = true → splitRest a0 = .ok n →
        n ≠ "name" → n ≠ "parent" →
        (PlanCollector.init plansMod stubsMod [(cn, as)] [] nm oid).map
            (fun col => (funcBindings col.dict, (relSubDict col).map subFuncBindings)) =
          .ok ([], some [(n, { module := .plans, fname := cn, doc := d })])) ∧
      (planIsRelative cn = false → a0 ≠ "relative" →
        (PlanCollector.init plansMod stubsMod [(cn, as)] [] nm oid).map
            (fun col => (funcBindings col.dict, (relSubDict col).map subFuncBindings)) =
          .ok ([(a0, { module := .plans, fname := cn, doc := d })], some []))) := by
  constructor
  · intro hmod
    constructor
    · intro n hroute hsplit hn1 hn2
      simp [PlanCollector.init, runStubs, runPlans, stubStep, hroute, ha0, hsplit,
        getattrF, hmod, pySet, mkFinal, PlanCollectorSub.init, setMethods,
        parentNameString, pyLookup, formatValue, funcBindings, relSubDict,
        subFuncBindings, Except.map, hn1, hn2, Ne.symm hn1, Ne.symm hn2]
    · intro hroute ha0rel
      by_cases han : "name" = a0
      · subst han
        simp [PlanCollector.init, runStubs, runPlans, stubStep, hroute, ha0,
          getattrF, hmod, pySet, mkFinal, PlanCollectorSub.init, setMethods,
          parentNameString, pyLookup, formatValue, funcBindings, relSubDict,
          subFuncBindings, Except.map, ha0rel, Ne.symm ha0rel]
      · simp [PlanCollector.init, runStubs, runPlans, stubStep, hroute, ha0,
          getattrF, hmod, pySet, mkFinal, PlanCollectorSub.init, setMethods,
          parentNameString, pyLookup, formatValue, funcBindings, relSubDict,
          subFuncBindings, Except.map, ha0rel, Ne.symm ha0rel, han]
  · intro hmod
    constructor
    · intro n hroute hsplit hn1 hn2
      simp [PlanCollector.init, runStubs, runPlans, planStep, hroute, ha0, hsplit,
        getattrF, hmod, pySet, mkFinal, PlanCollectorSub.init, setMethods,
        parentNameString, pyLookup, formatValue, funcBindings, relSubDict,
        subFuncBindings, Except.map, hn1, hn2, Ne.symm hn1, Ne.symm hn2]
    · intro hroute ha0rel
      by_cases han : "name" = a0
      · subst han
        simp [PlanCollector.init, runStubs, runPlans, planStep, hroute, ha0,
          getattrF, hmod, pySet, mkFinal, PlanCollectorSub.init, setMethods,
          parentNameString, pyLookup, formatValue, funcBindings, relSubDict,
          subFuncBindings, Except.map, ha0rel, Ne.symm ha0rel]
      · simp [PlanCollector.init, runStubs, runPlans, planStep, hroute, ha0,
          getattrF, hmod, pySet, mkFinal, PlanCollectorSub.init, setMethods,
          parentNameString, pyLookup, formatValue, funcBindings, relSubDict,
          subFuncBindings, Except.map, ha0rel, Ne.symm ha0rel, han]

/-- Witness for C3 as amended, at the `mvr` entry. -/
theorem c3_amended_routing_witness :
    (PlanCollector.init demoPlansModule demoStubsModule []
        [("mvr", ["relative_move", "mv"])] "plan" 0).map
        (fun col => (funcBindings col.dict, (relSubDict col).map subFuncBindings)) =
      .ok ([], some [("move", { module := .plan_stubs, fname := "mvr", doc := "Stub doc." })]) :=
  ((c3_amended_routing demoPlansModule demoStubsModule "mvr" ["relative_move", "mv"]
      "relative_move" "Stub doc." "plan" 0 (by decide)).1 (by decide)).1
    "move" (by decide) (by decide) (by decide) (by decide)

/-- Helper: the plan-stub loop processes an appended list in two stages. -/
theorem runStubs_append (m : PyModule) (st : Dict × RelTable) (l1 l2 : List Entry) :
    runStubs m st (l1 ++ l2) =
      match runStubs m st l1 with
      | .error e => .error e
      | .ok st' => runStubs m st' l2 := by
  induction l1 generalizing st with
  | nil => simp [runStubs]
  | cons e rest ih =>
    simp only [List.cons_append, runStubs]
    cases stubStep m st e with
    | error er => rfl
    | ok st' => exact ih st'

/-- Helper: the plan loop processes an appended list in two stages. -/
theorem runPlans_append (m : PyModule) (st : Dict × RelTable) (l1 l2 : List Entry) :
    runPlans m st (l1 ++ l2) =
      match runPlans m st l1 with
      | .error e => .error e
      | .ok st' => runPlans m st' l2 := by
  induction l1 generalizing st with
  | nil => simp [runPlans]
  | cons e rest ih =>
    simp only [List.cons_append, runPlans]
    cases planStep m st e with
    | error er => rfl
    | ok st' => exact ih st'

/-- Helper: a plan-stub entry whose canonical name is missing from the
module always makes its loop iteration fail. -/
theorem stubStep_missing (m : PyModule) (st : Dict × RelTable) (cn : String)
    (as : List String) (h : m cn = none) :
    ∃ e, stubStep m st (cn, as) = .error e := by
  cases hidx : pyIndex as 0 with
  | error er =>
    cases hroute : stubIsRelative cn <;> exact ⟨er, by simp [stubStep, hroute, hidx]⟩
  | ok a0 =>
    cases hroute : stubIsRelative cn
    · exact ⟨.attributeError (moduleName .plan_stubs) cn,
        by simp [stubStep, hroute, hidx, getattrF, h]⟩
    · cases hsplit : splitRest a0 with
      | error er => exact ⟨er, by simp [stubStep, hroute, hidx, hsplit]⟩
      | ok n => exact ⟨.attributeError (moduleName .plan_stubs) cn,
          by simp [stubStep, hroute, hidx, hsplit, getattrF, h]⟩

/-- Helper: a plan entry whose canonical name is missing from the
module always makes its loop iteration fail. -/
theorem planStep_missing (m : PyModule) (st : Dict × RelTable) (cn : String)
    (as : List String) (h : m cn = none) :
    ∃ e, planStep m st (cn, as) = .error e := by
  cases hidx : pyIndex as 0 with
  | error er =>
    cases hroute : planIsRelative cn <;> exact ⟨er, by simp [planStep, hroute, hidx]⟩
  | ok a0 =>
    cases hroute : planIsRelative cn
    · exact ⟨.attributeError (moduleName .plans) cn,
        by simp [planStep, hroute, hidx, getattrF, h]⟩
    · cases hsplit : splitRest a0 with
      | error er => exact ⟨er, by simp [planStep, hroute, hidx, hsplit]⟩
      | ok n => exact ⟨.attributeError (moduleName .plans) cn,
          by simp [planStep, hroute, hidx, hsplit, getattrF, h]⟩

/-- C4: when a configured canonical name is absent from its source
module, construction fails at that entry: the whole constructor
returns an error fixed by the entries up to the failing one, no matter
what the remaining entries (or, for a stub failure, the whole plan
table) contain, and no collector object is produced. -/
theorem c4_construction_fails_fast (plansMod stubsMod : PyModule) (nm : String) (oid : Nat) :
    (∀ stubs1 st cn as,
      runStubs stubsMod ([("name", Value.str nm)], []) stubs1 = .ok st →
      stubsMod cn = none →
      ∃ e, ∀ rest plansT,
        PlanCollector.init plansMod stubsMod plansT (stubs1 ++ (cn, as) :: rest) nm oid =
          .error e) ∧
    (∀ stubsT st1 plans1 st2 cn as,
      runStubs stubsMod ([("name", Value.str nm)], []) stubsT = .ok st1 →
      runPlans plansMod st1 plans1 = .ok st2 →
      plansMod cn = none →
      ∃ e, ∀ rest,
        PlanCollector.init plansMod stubsMod (plans1 ++ (cn, as) :: rest) stubsT nm oid =
          .error e) := by
  constructor
  · intro stubs1 st cn as hrun hmiss
    obtain ⟨e, he⟩ := stubStep_missing stubsMod st cn as hmiss
    refine ⟨e, fun rest plansT => ?_⟩
    simp [PlanCollector.init, runStubs_append, hrun, runStubs, he]
  · intro stubsT st1 plans1 st2 cn as hrun1 hrun2 hmiss
    obtain ⟨e, he⟩ := planStep_missing plansMod st2 cn as hmiss
    refine ⟨e, fun rest => ?_⟩
    simp [PlanCollector.init, hrun1, runPlans_append, hrun2, runPlans, he]

/-- Witness for C4: a module without `mv` makes the very first shipped
stub entry abort the construction. -/
theorem c4_construction_fails_fast_witness :
    ∃ e, ∀ rest plansT,
      PlanCollector.init demoPlansModule emptyModule plansT
          ([] ++ ("mv", ["move", "mv"]) :: rest) "plan" 0 = .error e :=
  (c4_construction_fails_fast demoPlansModule emptyModule "plan" 0).1
    [] ([("name", Value.str "plan")], []) "mv" ["move", "mv"] (by decide) rfl

/-- Helper: a successful run of the `PlanCollectorSub.__str__` loop
only ever appends to its accumulator. -/
theorem subStrLoop_prefix (items : List (String × SubValue)) :
    ∀ acc out, subStrLoop items acc = .ok out → ∃ tail, out = acc ++ tail := by
  induction items with
  | nil =>
    intro acc out h
    simp [subStrLoop] at h
    exact ⟨"", by rw [String.append_empty]; exact h.symm⟩
  | cons p rest ih =>
    intro acc out h
    obtain ⟨n, v⟩ := p
    by_cases hb : n = "name" ∨ n = "parent"
    · simp only [subStrLoop] at h
      rw [if_pos hb] at h
      exact ih acc out h
    · simp only [subStrLoop] at h
      rw [if_neg hb] at h
      cases hdoc : docOfSubValue v with
      | error e => rw [hdoc] at h; cases h
      | ok doc =>
        rw [hdoc] at h
        dsimp only at h
        cases hdesc : descriptionOf doc with
        | error e => rw [hdesc] at h; cases h
        | ok d =>
          rw [hdesc] at h
          dsimp only at h
          obtain ⟨tail, htail⟩ := ih _ _ h
          exact ⟨"\n    " ++ n ++ ":    " ++ d ++ tail, by
            rw [htail]; simp [String.append_assoc]⟩

/-- Helper: each unfiltered function entry of the dict contributes its
own line to a successful run of the `PlanCollectorSub.__str__` loop. -/
theorem subStrLoop_entry_infix (items : List (String × SubValue)) :
    ∀ acc out n f d, subStrLoop items acc = .ok out →
      (n, SubValue.func f) ∈ items → ¬(n = "name" ∨ n = "parent") →
      descriptionOf f.doc = .ok d →
      ∃ pre post, out = pre ++ ("\n    " ++ n ++ ":    " ++ d) ++ post := by
  induction items with
  | nil =>
    intro acc out n f d h hmem hb hdesc
    cases hmem
  | cons p rest ih =>
    intro acc out n f d h hmem hb hdesc
    obtain ⟨n', v'⟩ := p
    rcases List.mem_cons.mp hmem with heq | hmem'
    · cases heq
      simp only [subStrLoop] at h
      rw [if_neg hb] at h
      simp only [docOfSubValue] at h
      rw [hdesc] at h
      dsimp only at h
      obtain ⟨tail, htail⟩ := subStrLoop_prefix rest _ _ h
      exact ⟨acc, tail, by rw [htail]; simp [String.append_assoc]⟩
    · by_cases hb' : n' = "name" ∨ n' = "parent"
      · simp only [subStrLoop] at h
        rw [if_pos hb'] at h
        exact ih _ _ _ _ _ h hmem' hb hdesc
      · simp only [subStrLoop] at h
        rw [if_neg hb'] at h
        cases hdoc : docOfSubValue v' with
        | error e => rw [hdoc] at h; cases h
        | ok doc =>
          rw [hdoc] at h
          dsimp only at h
          cases hdesc' : descriptionOf doc with
          | error e => rw [hdesc'] at h; cases h
          | ok d' =>
            rw [hdesc'] at h
            dsimp only at h
            exact ih _ _ _ _ _ h hmem' hb hdesc

/-- Helper: a successful run of the `PlanCollector.__str__` loop only
ever appends to its accumulator. -/
theorem colStrLoop_prefix (selfName : String) (items : List (String × Value)) :
    ∀ acc out, colStrLoop selfName items acc = .ok out → ∃ tail, out = acc ++ tail := by
  induction items with
  | nil =>
    intro acc out h
    simp [colStrLoop] at h
    exact ⟨"", by rw [String.append_empty]; exact h.symm⟩
  | cons p rest ih =>
    intro acc out h
    obtain ⟨n, v⟩ := p
    by_cases hb : n = "name" ∨ n = "parent"
    · simp only [colStrLoop] at h
      rw [if_pos hb] at h
      exact ih acc out h
    · simp only [colStrLoop] at h
      rw [if_neg hb] at h
      cases hdict : hasAttrDictNonempty v with
      | error e => rw [hdict] at h; cases h
      | ok b =>
        rw [hdict] at h
        cases b with
        | true =>
          dsimp only at h
          cases hrend : renderValueStr v with
          | error e => rw [hrend] at h; cases h
          | ok sv =>
            rw [hrend] at h
            dsimp only at h
            obtain ⟨tail, htail⟩ := ih _ _ h
            exact ⟨"\n    " ++
              pyReplace (pyReplace sv "\n" "\n    ") (selfName ++ "_") "" ++ tail, by
              rw [htail]; simp [String.append_assoc]⟩
        | false =>
          dsimp only at h
          cases hdoc : docOfValue v with
          | error e => rw [hdoc] at h; cases h
          | ok doc =>
            rw [hdoc] at h
            dsimp only at h
            cases hdesc : descriptionOf doc with
            | error e => rw [hdesc] at h; cases h
            | ok d =>
              rw [hdesc] at h
              dsimp only at h
              obtain ⟨tail, htail⟩ := ih _ _ h
              exact ⟨"\n    " ++ n ++ ":    " ++ d ++ tail, by
                rw [htail]; simp [String.append_assoc]⟩

/-- Helper: each unfiltered function entry of the dict contributes its
own line to a successful run of the `PlanCollector.__str__` loop. -/
theorem colStrLoop_entry_infix (selfName : String) (items : List (String × Value)) :
    ∀ acc out n f d, colStrLoop selfName items acc = .ok out →
      (n, Value.func f) ∈ items → ¬(n = "name" ∨ n = "parent") →
      descriptionOf f.doc = .ok d →
      ∃ pre post, out = pre ++ ("\n    " ++ n ++ ":    " ++ d) ++ post := by
  induction items with
  | nil =>
    intro acc out n f d h hmem hb hdesc
    cases hmem
  | cons p rest ih =>
    intro acc out n f d h hmem hb hdesc
    obtain ⟨n', v'⟩ := p
    rcases List.mem_cons.mp hmem with heq | hmem'
    · cases heq
      simp only [colStrLoop] at h
      rw [if_neg hb] at h
      simp only [hasAttrDictNonempty, docOfValue] at h
      rw [hdesc] at h
      dsimp only at h
      obtain ⟨tail, htail⟩ := colStrLoop_prefix selfName rest _ _ h
      exact ⟨acc, tail, by rw [htail]; simp [String.append_assoc]⟩
    · by_cases hb' : n' = "name" ∨ n' = "parent"
      · simp only [colStrLoop] at h
        rw [if_pos hb'] at h
        exact ih _ _ _ _ _ h hmem' hb hdesc
      · simp only [colStrLoop] at h
        rw [if_neg hb'] at h
        cases hdict : hasAttrDictNonempty v' with
        | error e => rw [hdict] at h; cases h
        | ok b =>
          rw [hdict] at h
          cases b with
          | true =>
            dsimp only at h
            cases hrend : renderValueStr v' with
            | error e => rw [hrend] at h; cases h
            | ok sv =>
              rw [hrend] at h
              dsimp only at h
              exact ih _ _ _ _ _ h hmem' hb hdesc
          | false =>
            dsimp only at h
            cases hdoc : docOfValue v' with
            | error e => rw [hdoc] at h; cases h
            | ok doc =>
              rw [hdoc] at h
              dsimp only at h
              cases hdesc' : descriptionOf doc with
              | error e => rw [hdesc'] at h; cases h
              | ok d' =>
                rw [hdesc'] at h
                dsimp only at h
                exact ih _ _ _ _ _ h hmem' hb hdesc

/-- Counterexample for C5: a function whose docstring is
`"\n\nHello"` has `Hello` as its first non-empty docstring line, yet
the summary shows an empty description for it, because the code only
ever consults the first two lines. -/
theorem c5_counterexample :
    descriptionOf "\n\nHello" = .ok "" ∧
    firstNonEmptyLine "\n\nHello" = some "Hello" ∧
    PlanCollectorSub.str (PlanCollectorSub.init
        [("foo", { module := .plans, fname := "rel_foo", doc := "\n\nHello" })]
        "relative" [("name", Value.str "collector")] 0) =
      .ok "\ncollector_relative:\n    foo:    " ∧
    ("" : String) ≠ "Hello" := by decide

/-- C5 as amended: the description shown for a bound function is the
stripped first docstring line when that line is non-empty and the
stripped second line otherwise; it therefore agrees with the first
non-empty docstring line exactly when that line occurs among the first
two.  Both `__str__` methods print each unfiltered function entry on a
line built from this description. -/
theorem c5_amended_description :
    (∀ doc l, firstNonEmptyLine doc = some l → l ∈ (pySplitLines doc).take 2 →
      descriptionOf doc = .ok (pyStrip l)) ∧
    (∀ s out n f d, PlanCollectorSub.str s = .ok out →
      (n, SubValue.func f) ∈ s.dict → ¬(n = "name" ∨ n = "parent") →
      descriptionOf f.doc = .ok d →
      ∃ pre post, out = pre ++ ("\n    " ++ n ++ ":    " ++ d) ++ post) ∧
    (∀ c out n f d, PlanCollector.str c = .ok out →
      (n, Value.func f) ∈ c.dict → ¬(n = "name" ∨ n = "parent") →
      descriptionOf f.doc = .ok d →
      ∃ pre post, out = pre ++ ("\n    " ++ n ++ ":    " ++ d) ++ post) := by
  refine ⟨?_, ?_, ?_⟩
  · intro doc l hfind htake
    unfold firstNonEmptyLine at hfind
    unfold descriptionOf
    cases hsplit : pySplitLines doc with
    | nil => rw [hsplit] at hfind; cases hfind
    | cons l0 rest =>
      rw [hsplit] at hfind htake
      dsimp only
      by_cases h0 : l0 = ""
      · subst h0
        rw [if_pos rfl]
        rw [List.find?_cons_of_neg _ (by simp)] at hfind
        cases rest with
        | nil => rw [List.find?_nil] at hfind; cases hfind
        | cons l1 rest' =>
          by_cases h1 : l1 = ""
          · subst h1
            rw [List.find?_cons_of_neg _ (by simp)] at hfind
            have hl : l ≠ "" := by simpa using List.find?_some hfind
            rw [List.take_succ_cons, List.take_succ_cons] at htake
            simp at htake
            exact absurd htake hl
          · rw [List.find?_cons_of_pos _ (by simpa using h1)] at hfind
            obtain rfl : l1 = l := Option.some.inj hfind
            rfl
      · rw [List.find?_cons_of_pos _ (by simpa using h0)] at hfind
        obtain rfl : l0 = l := Option.some.inj hfind
        rw [if_neg h0]
  · intro s out n f d h hmem hb hdesc
    unfold PlanCollectorSub.str at h
    cases hname : pyGetattrSub s.dict "name" with
    | error e => rw [hname] at h; cases h
    | ok v =>
      rw [hname] at h
      dsimp only at h
      exact subStrLoop_entry_infix s.dict _ _ _ _ _ h hmem hb hdesc
  · intro c out n f d h hmem hb hdesc
    unfold PlanCollector.str at h
    cases hname : pyGetattrCol c.dict "name" with
    | error e => rw [hname] at h; cases h
    | ok v =>
      rw [hname] at h
      dsimp only at h
      exact colStrLoop_entry_infix (formatValue v) c.dict _ _ _ _ _ h hmem hb hdesc

/-- Witness for C5 as amended: concrete docstrings and objects for all
three parts. -/
theorem c5_amended_description_witness :
    descriptionOf "Hi\nrest" = .ok (pyStrip "Hi") ∧
    (∃ pre post,
      ("\nplan_relative:\n    foo:    Hello" : String) =
        pre ++ ("\n    " ++ "foo" ++ ":    " ++ "Hello") ++ post) ∧
    (∃ pre post,
      ("\nplan:\n    count:    Plan doc.\n    \n    relative:" : String) =
        pre ++ ("\n    " ++ "count" ++ ":    " ++ "Plan doc.") ++ post) := by
  refine ⟨c5_amended_description.1 "Hi\nrest" "Hi" (by decide) (by decide), ?_, ?_⟩
  · exact c5_amended_description.2.1
      (PlanCollectorSub.init
        [("foo", { module := .plans, fname := "rel_foo", doc := "Hello" })]
        "relative" [("name", Value.str "plan")] 0)
      "\nplan_relative:\n    foo:    Hello" "foo"
      { module := .plans, fname := "rel_foo", doc := "Hello" } "Hello"
      (by decide) (by decide) (by decide) (by decide)
  · exact c5_amended_description.2.2
      { oid := 0,
        dict := [("name", Value.str "plan"),
                 ("count", Value.func { module := .plans, fname := "count", doc := "Plan doc." }),
                 ("relative", Value.sub { dict :=
                   [("name", SubValue.str "plan_relative"),
                    ("parent", SubValue.parentRef 0)] })] }
      "\nplan:\n    count:    Plan doc.\n    \n    relative:" "count"
      { module := .plans, fname := "count", doc := "Plan doc." } "Plan doc."
      (by decide) (by decide) (by decide) (by decide)

/-- Helper: lookup after a dict update. -/
theorem pyLookup_pySet {α : Type} (d : List (String × α)) (k k' : String) (v : α) :
    pyLookup (pySet d k v) k' = if k = k' then some v else pyLookup d k' := by
  induction d with
  | nil => simp [pySet, pyLookup]
  | cons p rest ih =>
    obtain ⟨k0, v0⟩ := p
    by_cases h0 : k0 = k
    · subst h0
      by_cases h1 : k0 = k' <;> simp [pySet, pyLookup, h1]
    · by_cases h1 : k0 = k'
      · have h2 : ¬(k = k') := fun hh => h0 (h1.trans hh.symm)
        have h3 : ¬(k' = k) := fun hh => h2 hh.symm
        subst h1
        simp [pySet, pyLookup, h0, h2, h3, ih]
      · simp [pySet, pyLookup, h0, h1, ih]

/-- Helper: a key has a binding exactly when it occurs among the dict
keys. -/
theorem pyLookup_isSome_iff {α : Type} (d : List (String × α)) (k : String) :
    (pyLookup d k).isSome = true ↔ k ∈ d.map Prod.fst := by
  induction d with
  | nil => simp [pyLookup]
  | cons p rest ih =>
    obtain ⟨k0, v0⟩ := p
    by_cases h : k0 = k
    · subst h
      simp [pyLookup]
    · simp only [pyLookup, if_neg h, List.map_cons, List.mem_cons]
      rw [ih]
      constructor
      · exact Or.inr
      · rintro (hh | hh)
        · exact absurd hh.symm h
        · exact hh

/-- Helper: a successful index 0 read returns the head. -/
theorem pyIndex_zero_headD (l : List String) (a : String) (h : pyIndex l 0 = .ok a) :
    l.headD "" = a := by
  cases l with
  | nil => simp [pyIndex] at h
  | cons x xs => simp [pyIndex] at h; simpa using h

/-- The first aliases of the plan-stub entries bound directly on the
collector (the only keys the stub loop can add to the instance dict). -/
def stubDirectKeys (l : List Entry) : List String :=
  (l.filter (fun e => !stubIsRelative e.1)).map (fun e => e.2.headD "")

/-- The first aliases of the plan entries bound directly on the
collector. -/
def planDirectKeys (l : List Entry) : List String :=
  (l.filter (fun e => !planIsRelative e.1)).map (fun e => e.2.headD "")

/-- Helper: unfolding of `stubDirectKeys` over a cons cell. -/
theorem stubDirectKeys_cons (e : Entry) (l : List Entry) :
    stubDirectKeys (e :: l) =
      if stubIsRelative e.1 then stubDirectKeys l
      else e.2.headD "" :: stubDirectKeys l := by
  by_cases h : stubIsRelative e.1 <;> simp [stubDirectKeys, h]

/-- Helper: unfolding of `planDirectKeys` over a cons cell. -/
theorem planDirectKeys_cons (e : Entry) (l : List Entry) :
    planDirectKeys (e :: l) =
      if planIsRelative e.1 then planDirectKeys l
      else e.2.headD "" :: planDirectKeys l := by
  by_cases h : planIsRelative e.1 <;> simp [planDirectKeys, h]

/-- Helper: one stub iteration leaves every instance attribute other
than the entry first alias untouched. -/
theorem stubStep_lookup (m : PyModule) (st : Dict × RelTable) (e : Entry)
    (st' : Dict × RelTable) (h : stubStep m st e = .ok st') (k : String)
    (hk : stubIsRelative e.1 = true ∨ e.2.headD "" ≠ k) :
    pyLookup st'.1 k = pyLookup st.1 k := by
  obtain ⟨cn, as⟩ := e
  cases hroute : stubIsRelative cn
  · rcases hk with hk | hk
    · rw [hroute] at hk; cases hk
    · cases hidx : pyIndex as 0 with
      | error er => simp [stubStep, hroute, hidx] at h
      | ok a0 =>
        cases hget : getattrF .plan_stubs m cn with
        | error er => simp [stubStep, hroute, hidx, hget] at h
        | ok f =>
          simp [stubStep, hroute, hidx, hget] at h
          have ha : a0 ≠ k := by
            rw [← pyIndex_zero_headD as a0 hidx]; exact hk
          rw [← h]
          simp [pyLookup_pySet, ha]
  · cases hidx : pyIndex as 0 with
    | error er => simp [stubStep, hroute, hidx] at h
    | ok a0 =>
      cases hsplit : splitRest a0 with
      | error er => simp [stubStep, hroute, hidx, hsplit] at h
      | ok n =>
        cases hget : getattrF .plan_stubs m cn with
        | error er => simp [stubStep, hroute, hidx, hsplit, hget] at h
        | ok f =>
          simp [stubStep, hroute, hidx, hsplit, hget] at h
          rw [← h]

/-- Helper: one plan iteration leaves every instance attribute other
than the entry first alias untouched. -/
theorem planStep_lookup (m : PyModule) (st : Dict × RelTable) (e : Entry)
    (st' : Dict × RelTable) (h : planStep m st e = .ok st') (k : String)
    (hk : planIsRelative e.1 = true ∨ e.2.headD "" ≠ k) :
    pyLookup st'.1 k = pyLookup st.1 k := by
  obtain ⟨cn, as⟩ := e
  cases hroute : planIsRelative cn
  · rcases hk with hk | hk
    · rw [hroute] at hk; cases hk
    · cases hidx : pyIndex as 0 with
      | error er => simp [planStep, hroute, hidx] at h
      | ok a0 =>
        cases hget : getattrF .plans m cn with
        | error er => simp [planStep, hroute, hidx, hget] at h
        | ok f =>
          simp [planStep, hroute, hidx, hget] at h
          have ha : a0 ≠ k := by
            rw [← pyIndex_zero_headD as a0 hidx]; exact hk
          rw [← h]
          simp [pyLookup_pySet, ha]
  · cases hidx : pyIndex as 0 with
    | error er => simp [planStep, hroute, hidx] at h
    | ok a0 =>
      cases hsplit : splitRest a0 with
      | error er => simp [planStep, hroute, hidx, hsplit] at h
      | ok n =>
        cases hget : getattrF .plans m cn with
        | error er => simp [planStep, hroute, hidx, hsplit, hget] at h
        | ok f =>
          simp [planStep, hroute, hidx, hsplit, hget] at h
          rw [← h]

/-- Helper: the stub loop leaves every instance attribute outside its
direct-alias keys untouched. -/
theorem runStubs_lookup (m : PyModule) :
    ∀ (l : List Entry) (st st' : Dict × RelTable), runStubs m st l = .ok st' →
      ∀ k, k ∉ stubDirectKeys l → pyLookup st'.1 k = pyLookup st.1 k := by
  intro l
  induction l with
  | nil =>
    intro st st' h k hk
    simp [runStubs] at h
    rw [← h]
  | cons e rest ih =>
    intro st st' h k hk
    simp only [runStubs] at h
    cases hstep : stubStep m st e with
    | error er => rw [hstep] at h; cases h
    | ok st1 =>
      rw [hstep] at h
      rw [stubDirectKeys_cons] at hk
      by_cases hroute : stubIsRelative e.1
      · rw [if_pos hroute] at hk
        rw [ih st1 st' h k hk]
        exact stubStep_lookup m st e st1 hstep k (Or.inl hroute)
      · rw [if_neg hroute] at hk
        simp only [List.mem_cons, not_or] at hk
        rw [ih st1 st' h k hk.2]
        exact stubStep_lookup m st e st1 hstep k (Or.inr (Ne.symm hk.1))

/-- Helper: the plan loop leaves every instance attribute outside its
direct-alias keys untouched. -/
theorem runPlans_lookup (m : PyModule) :
    ∀ (l : List Entry) (st st' : Dict × RelTable), runPlans m st l = .ok st' →
      ∀ k, k ∉ planDirectKeys l → pyLookup st'.1 k = pyLookup st.1 k := by
  intro l
  induction l with
  | nil =>
    intro st st' h k hk
    simp [runPlans] at h
    rw [← h]
  | cons e rest ih =>
    intro st st' h k hk
    simp only [runPlans] at h
    cases hstep : planStep m st e with
    | error er => rw [hstep] at h; cases h
    | ok st1 =>
      rw [hstep] at h
      rw [planDirectKeys_cons] at hk
      by_cases hroute : planIsRelative e.1
      · rw [if_pos hroute] at hk
        rw [ih st1 st' h k hk]
        exact planStep_lookup m st e st1 hstep k (Or.inl hroute)
      · rw [if_neg hroute] at hk
        simp only [List.mem_cons, not_or] at hk
        rw [ih st1 st' h k hk.2]
        exact planStep_lookup m st e st1 hstep k (Or.inr (Ne.symm hk.1))

/-- Helper: inversion of a successful construction into its two loop
stages and final assembly. -/
theorem init_inversion (plansMod stubsMod : PyModule) (t1 t2 : List Entry)
    (nm : String) (oid : Nat) (c : PlanCollector)
    (h : PlanCollector.init plansMod stubsMod t1 t2 nm oid = .ok c) :
    ∃ st1 st2, runStubs stubsMod ([("name", Value.str nm)], []) t2 = .ok st1 ∧
      runPlans plansMod st1 t1 = .ok st2 ∧ c = mkFinal st2 oid := by
  unfold PlanCollector.init at h
  cases hr1 : runStubs stubsMod ([("name", Value.str nm)], []) t2 with
  | error er => rw [hr1] at h; cases h
  | ok st1 =>
    rw [hr1] at h
    dsimp only at h
    cases hr2 : runPlans plansMod st1 t1 with
    | error er => rw [hr2] at h; cases h
    | ok st2 =>
      rw [hr2] at h
      dsimp only at h
      cases h
      exact ⟨st1, st2, rfl, hr2, rfl⟩

/-- Counterexample for C6: an entry whose first alias is the literal
string `parent` puts `parent` into the attribute list returned by
`PlanCollector.__dir__`, which only filters `name`. -/
theorem c6_counterexample :
    (PlanCollector.init demoPlansModule demoStubsModule [("scan", ["parent"])] []
        "plan" 0).map (fun c => decide ("parent" ∈ PlanCollector.dir c)) = .ok true := by
  decide

/-- C6 as amended: both `__dir__` lists never contain `name`, and the
`PlanCollectorSub` list never contains `parent`; the `PlanCollector`
list can contain `parent` only when some entry first alias is the
literal string `parent` (the collector itself never acquires a parent
bookkeeping attribute). -/
theorem c6_amended_dir (plansMod stubsMod : PyModule) (t1 t2 : List Entry)
    (nm : String) (oid : Nat) (c : PlanCollector)
    (h : PlanCollector.init plansMod stubsMod t1 t2 nm oid = .ok c) :
    "name" ∉ PlanCollector.dir c ∧
    (∀ s : PlanCollectorSub,
      "name" ∉ PlanCollectorSub.dir s ∧ "parent" ∉ PlanCollectorSub.dir s) ∧
    ("parent" ∉ stubDirectKeys t2 → "parent" ∉ planDirectKeys t1 →
      "parent" ∉ PlanCollector.dir c) := by
  refine ⟨?_, ?_, ?_⟩
  · intro hmem
    simp [PlanCollector.dir] at hmem
  · intro s
    constructor
    · intro hmem
      simp [PlanCollectorSub.dir] at hmem
    · intro hmem
      simp [PlanCollectorSub.dir] at hmem
  · intro hp2 hp1 hmem
    obtain ⟨st1, st2, hr1, hr2, rfl⟩ :=
      init_inversion plansMod stubsMod t1 t2 nm oid c h
    have hkey : "parent" ∈ (mkFinal st2 oid).dict.map Prod.fst :=
      (List.mem_filter.mp hmem).1
    have hsome := (pyLookup_isSome_iff (mkFinal st2 oid).dict "parent").mpr hkey
    have hnone : pyLookup (mkFinal st2 oid).dict "parent" = none := by
      simp only [mkFinal]
      rw [pyLookup_pySet]
      rw [if_neg (by decide : ¬(("relative" : String) = "parent"))]
      rw [runPlans_lookup plansMod t1 st1 st2 hr2 "parent" hp1,
        runStubs_lookup stubsMod t2 ([("name", Value.str nm)], []) st1 hr1 "parent" hp2]
      simp [pyLookup]
    rw [hnone] at hsome
    cases hsome

/-- A small concrete collector used by several witnesses: the result
of construction from the table holding only the `count` entry. -/
def demoCollector (oid : Nat) : PlanCollector :=
  { oid := oid,
    dict := [("name", Value.str "plan"),
             ("count", Value.func { module := .plans, fname := "count", doc := "Plan doc." }),
             ("relative", Value.sub { dict :=
               [("name", SubValue.str "plan_relative"),
                ("parent", SubValue.parentRef oid)] })] }

/-- Helper: `demoCollector oid` is what construction from the
single-entry table builds, for every object id. -/
theorem demoCollector_init (oid : Nat) :
    PlanCollector.init demoPlansModule demoStubsModule [("count", ["count"])] []
      "plan" oid = .ok (demoCollector oid) := by
  simp [PlanCollector.init, runStubs, runPlans, stubStep, planStep, stubIsRelative,
    planIsRelative, pyStartsWith, pyIndex, splitRest, afterFirstUnderscore, getattrF,
    pySet, mkFinal, PlanCollectorSub.init, setMethods, parentNameString, pyLookup,
    formatValue, demoPlansModule, demoStubsModule, _plans_to_import, demoCollector]

/-- Witness for C6 as amended, on the single-entry construction. -/
theorem c6_amended_dir_witness :
    "name" ∉ PlanCollector.dir (demoCollector 0) ∧
    (∀ s : PlanCollectorSub,
      "name" ∉ PlanCollectorSub.dir s ∧ "parent" ∉ PlanCollectorSub.dir s) ∧
    ("parent" ∉ stubDirectKeys [] → "parent" ∉ planDirectKeys [("count", ["count"])] →
      "parent" ∉ PlanCollector.dir (demoCollector 0)) :=
  c6_amended_dir demoPlansModule demoStubsModule [("count", ["count"])] [] "plan" 0
    (demoCollector 0) (demoCollector_init 0)

/-- The alias-table well-formedness a plan-stub entry needs so that its
alias accesses are defined: a non-empty alias list and, when the entry
is routed to the relative table, an underscore in the first alias. -/
def wellFormedStubEntry (e : Entry) : Prop :=
  e.2 ≠ [] ∧
    (stubIsRelative e.1 = true →
      (afterFirstUnderscore (e.2.headD "").data).isSome = true)

/-- Alias-table well-formedness for a plan entry. -/
def wellFormedPlanEntry (e : Entry) : Prop :=
  e.2 ≠ [] ∧
    (planIsRelative e.1 = true →
      (afterFirstUnderscore (e.2.headD "").data).isSome = true)

instance (e : Entry) : Decidable (wellFormedStubEntry e) := by
  unfold wellFormedStubEntry; infer_instance

instance (e : Entry) : Decidable (wellFormedPlanEntry e) := by
  unfold wellFormedPlanEntry; infer_instance

/-- Helper: index 0 on a non-empty list succeeds. -/
theorem pyIndex_zero_ok (l : List String) (h : l ≠ []) :
    pyIndex l 0 = .ok (l.headD "") := by
  cases l with
  | nil => exact absurd rfl h
  | cons x xs => simp [pyIndex]

/-- Helper: a well-formed plan-stub entry can only fail with an
AttributeError (never an IndexError). -/
theorem stubStep_wf_err (m : PyModule) (st : Dict × RelTable) (e : Entry)
    (hwf : wellFormedStubEntry e) (er : PyError)
    (h : stubStep m st e = .error er) : ∃ o a, er = .attributeError o a := by
  obtain ⟨cn, as⟩ := e
  have hidx := pyIndex_zero_ok as hwf.1
  cases hroute : stubIsRelative cn
  · cases hget : m cn with
    | none =>
      simp [stubStep, hroute, hidx, getattrF, hget] at h
      exact ⟨moduleName .plan_stubs, cn, h.symm⟩
    | some d => simp [stubStep, hroute, hidx, getattrF, hget] at h
  · obtain ⟨cs, hcs⟩ := Option.isSome_iff_exists.mp (hwf.2 hroute)
    have hcs' : afterFirstUnderscore (as.head?.getD "").data = some cs := by
      simpa using hcs
    have hsplit : splitRest (as.head?.getD "") = .ok (String.mk cs) := by
      simp [splitRest, hcs']
    cases hget : m cn with
    | none =>
      simp [stubStep, hroute, hidx, hsplit, getattrF, hget] at h
      exact ⟨moduleName .plan_stubs, cn, h.symm⟩
    | some d => simp [stubStep, hroute, hidx, hsplit, getattrF, hget] at h

/-- Helper: a well-formed plan entry can only fail with an
AttributeError. -/
theorem planStep_wf_err (m : PyModule) (st : Dict × RelTable) (e : Entry)
    (hwf : wellFormedPlanEntry e) (er : PyError)
    (h : planStep m st e = .error er) : ∃ o a, er = .attributeError o a := by
  obtain ⟨cn, as⟩ := e
  have hidx := pyIndex_zero_ok as hwf.1
  cases hroute : planIsRelative cn
  · cases hget : m cn with
    | none =>
      simp [planStep, hroute, hidx, getattrF, hget] at h
      exact ⟨moduleName .plans, cn, h.symm⟩
    | some d => simp [planStep, hroute, hidx, getattrF, hget] at h
  · obtain ⟨cs, hcs⟩ := Option.isSome_iff_exists.mp (hwf.2 hroute)
    have hcs' : afterFirstUnderscore (as.head?.getD "").data = some cs := by
      simpa using hcs
    have hsplit : splitRest (as.head?.getD "") = .ok (String.mk cs) := by
      simp [splitRest, hcs']
    cases hget : m cn with
    | none =>
      simp [planStep, hroute, hidx, hsplit, getattrF, hget] at h
      exact ⟨moduleName .plans, cn, h.symm⟩
    | some d => simp [planStep, hroute, hidx, hsplit, getattrF, hget] at h

/-- Helper: a well-formed plan-stub entry with a present canonical name
always succeeds. -/
theorem stubStep_wf_ok (m : PyModule) (st : Dict × RelTable) (e : Entry)
    (hwf : wellFormedStubEntry e) (hp : m e.1 ≠ none) :
    ∃ st', stubStep m st e = .ok st' := by
  obtain ⟨cn, as⟩ := e
  have hidx := pyIndex_zero_ok as hwf.1
  cases hget : m cn with
  | none => exact absurd hget hp
  | some d =>
    cases hroute : stubIsRelative cn
    · refine ⟨(pySet st.1 (as.headD "")
        (Value.func { module := .plan_stubs, fname := cn, doc := d }), st.2), ?_⟩
      simp [stubStep, hroute, hidx, getattrF, hget]
    · obtain ⟨cs, hcs⟩ := Option.isSome_iff_exists.mp (hwf.2 hroute)
      have hcs' : afterFirstUnderscore (as.head?.getD "").data = some cs := by
        simpa using hcs
      have hsplit : splitRest (as.head?.getD "") = .ok (String.mk cs) := by
        simp [splitRest, hcs']
      refine ⟨(st.1, pySet st.2 (String.mk cs)
        { module := .plan_stubs, fname := cn, doc := d }), ?_⟩
      simp [stubStep, hroute, hidx, hsplit, getattrF, hget]

/-- Helper: a well-formed plan entry with a present canonical name
always succeeds. -/
theorem planStep_wf_ok (m : PyModule) (st : Dict × RelTable) (e : Entry)
    (hwf : wellFormedPlanEntry e) (hp : m e.1 ≠ none) :
    ∃ st', planStep m st e = .ok st' := by
  obtain ⟨cn, as⟩ := e
  have hidx := pyIndex_zero_ok as hwf.1
  cases hget : m cn with
  | none => exact absurd hget hp
  | some d =>
    cases hroute : planIsRelative cn
    · refine ⟨(pySet st.1 (as.headD "")
        (Value.func { module := .plans, fname := cn, doc := d }), st.2), ?_⟩
      simp [planStep, hroute, hidx, getattrF, hget]
    · obtain ⟨cs, hcs⟩ := Option.isSome_iff_exists.mp (hwf.2 hroute)
      have hcs' : afterFirstUnderscore (as.head?.getD "").data = some cs := by
        simpa using hcs
      have hsplit : splitRest (as.head?.getD "") = .ok (String.mk cs) := by
        simp [splitRest, hcs']
      refine ⟨(st.1, pySet st.2 (String.mk cs)
        { module := .plans, fname := cn, doc := d }), ?_⟩
      simp [planStep, hroute, hidx, hsplit, getattrF, hget]

/-- Helper: over well-formed entries the stub loop fails only with an
AttributeError. -/
theorem runStubs_wf_err (m : PyModule) :
    ∀ (l : List Entry) (st : Dict × RelTable) (er : PyError),
      (∀ e ∈ l, wellFormedStubEntry e) → runStubs m st l = .error er →
      ∃ o a, er = .attributeError o a := by
  intro l
  induction l with
  | nil => intro st er hwf h; simp [runStubs] at h
  | cons e rest ih =>
    intro st er hwf h
    simp only [runStubs] at h
    cases hstep : stubStep m st e with
    | error er2 =>
      rw [hstep] at h
      injection h with h'
      exact h' ▸ stubStep_wf_err m st e (hwf e (List.mem_cons_self e rest)) er2 hstep
    | ok st1 =>
      rw [hstep] at h
      exact ih st1 er (fun e' he' => hwf e' (List.mem_cons_of_mem e he')) h

/-- Helper: over well-formed entries the plan loop fails only with an
AttributeError. -/
theorem runPlans_wf_err (m : PyModule) :
    ∀ (l : List Entry) (st : Dict × RelTable) (er : PyError),
      (∀ e ∈ l, wellFormedPlanEntry e) → runPlans m st l = .error er →
      ∃ o a, er = .attributeError o a := by
  intro l
  induction l with
  | nil => intro st er hwf h; simp [runPlans] at h
  | cons e rest ih =>
    intro st er hwf h
    simp only [runPlans] at h
    cases hstep : planStep m st e with
    | error er2 =>
      rw [hstep] at h
      injection h with h'
      exact h' ▸ planStep_wf_err m st e (hwf e (List.mem_cons_self e rest)) er2 hstep
    | ok st1 =>
      rw [hstep] at h
      exact ih st1 er (fun e' he' => hwf e' (List.mem_cons_of_mem e he')) h

/-- Helper: over well-formed entries with present canonical names the
stub loop succeeds. -/
theorem runStubs_wf_ok (m : PyModule) :
    ∀ (l : List Entry) (st : Dict × RelTable),
      (∀ e ∈ l, wellFormedStubEntry e) → (∀ e ∈ l, m e.1 ≠ none) →
      ∃ st', runStubs m st l = .ok st' := by
  intro l
  induction l with
  | nil => intro st hwf hp; exact ⟨st, rfl⟩
  | cons e rest ih =>
    intro st hwf hp
    obtain ⟨st1, hst1⟩ := stubStep_wf_ok m st e
      (hwf e (List.mem_cons_self e rest)) (hp e (List.mem_cons_self e rest))
    obtain ⟨st', hst'⟩ := ih st1 (fun e' he' => hwf e' (List.mem_cons_of_mem e he'))
      (fun e' he' => hp e' (List.mem_cons_of_mem e he'))
    exact ⟨st', by simp [runStubs, hst1, hst']⟩

/-- Helper: over well-formed entries with present canonical names the
plan loop succeeds. -/
theorem runPlans_wf_ok (m : PyModule) :
    ∀ (l : List Entry) (st : Dict × RelTable),
      (∀ e ∈ l, wellFormedPlanEntry e) → (∀ e ∈ l, m e.1 ≠ none) →
      ∃ st', runPlans m st l = .ok st' := by
  intro l
  induction l with
  | nil => intro st hwf hp; exact ⟨st, rfl⟩
  | cons e rest ih =>
    intro st hwf hp
    obtain ⟨st1, hst1⟩ := planStep_wf_ok m st e
      (hwf e (List.mem_cons_self e rest)) (hp e (List.mem_cons_self e rest))
    obtain ⟨st', hst'⟩ := ih st1 (fun e' he' => hwf e' (List.mem_cons_of_mem e he'))
      (fun e' he' => hp e' (List.mem_cons_of_mem e he'))
    exact ⟨st', by simp [runPlans, hst1, hst']⟩

/-- Counterexample for C7: the relative entry `rel_scan` with the
single alias `relscan` (a non-empty alias list whose first element is
a valid identifier, as the claimed invariant requires) makes the
construction fail with an IndexError, because the stripped-name
derivation finds no underscore to split at; the canonical name is
present on the module, so the failure is the alias access itself. -/
theorem c7_counterexample :
    PlanCollector.init demoPlansModule demoStubsModule [("rel_scan", ["relscan"])] []
      "plan" 0 = .error .indexError ∧
    (["relscan"] : List String) ≠ [] ∧
    demoPlansModule "rel_scan" ≠ none := by decide

/-- C7 as amended: non-emptiness of the alias lists makes the
`aliases[0]` accesses defined, but the stripped-name derivation for a
relative-routed entry additionally needs an underscore in the first
alias.  Under both conditions construction never fails on alias
access: any failure is an AttributeError from a module lookup, and
when every canonical name is present the construction succeeds. -/
theorem c7_amended_alias_safety (plansMod stubsMod : PyModule) (t1 t2 : List Entry)
    (nm : String) (oid : Nat)
    (h2 : ∀ e ∈ t2, wellFormedStubEntry e) (h1 : ∀ e ∈ t1, wellFormedPlanEntry e) :
    (∀ er, PlanCollector.init plansMod stubsMod t1 t2 nm oid = .error er →
      ∃ o a, er = .attributeError o a) ∧
    ((∀ e ∈ t2, stubsMod e.1 ≠ none) → (∀ e ∈ t1, plansMod e.1 ≠ none) →
      ∃ c, PlanCollector.init plansMod stubsMod t1 t2 nm oid = .ok c) := by
  constructor
  · intro er herr
    unfold PlanCollector.init at herr
    cases hr1 : runStubs stubsMod ([("name", Value.str nm)], []) t2 with
    | error er1 =>
      rw [hr1] at herr
      injection herr with h'
      exact h' ▸ runStubs_wf_err stubsMod t2 _ er1 h2 hr1
    | ok st1 =>
      rw [hr1] at herr
      dsimp only at herr
      cases hr2 : runPlans plansMod st1 t1 with
      | error er2 =>
        rw [hr2] at herr
        injection herr with h'
        exact h' ▸ runPlans_wf_err plansMod t1 st1 er2 h1 hr2
      | ok st2 =>
        rw [hr2] at herr
        cases herr
  · intro hp2 hp1
    obtain ⟨st1, hst1⟩ := runStubs_wf_ok stubsMod t2 ([("name", Value.str nm)], []) h2 hp2
    obtain ⟨st2, hst2⟩ := runPlans_wf_ok plansMod t1 st1 h1 hp1
    exact ⟨mkFinal st2 oid, by simp [PlanCollector.init, hst1, hst2]⟩

/-- Witness for C7 as amended: the shipped tables are well-formed and
construction from modules providing every name succeeds. -/
theorem c7_amended_alias_safety_witness :
    ∃ c, PlanCollector.init demoPlansModule demoStubsModule _plans_to_import
      _plan_stubs_to_import "plan" 0 = .ok c :=
  (c7_amended_alias_safety demoPlansModule demoStubsModule _plans_to_import
      _plan_stubs_to_import "plan" 0 (by decide) (by decide)).2 (by decide) (by decide)

/-- Helper: the function bindings of a dict do not depend on the value
stored under a non-function key. -/
theorem funcBindings_pySet_sub (d : Dict) (k : String) (s s' : PlanCollectorSub) :
    funcBindings (pySet d k (Value.sub s)) = funcBindings (pySet d k (Value.sub s')) := by
  induction d with
  | nil => simp [pySet, funcBindings]
  | cons p rest ih =>
    obtain ⟨k0, v0⟩ := p
    by_cases h : k0 = k
    · simp [pySet, h, funcBindings]
    · have ih' := ih
      simp only [funcBindings] at ih'
      simp only [pySet, if_neg h, funcBindings, List.filterMap_cons]
      rw [ih']

/-- Helper: the function bindings of a child dict do not depend on the
parent reference stored under a key. -/
theorem subFuncBindings_pySet_parentRef (d : List (String × SubValue)) (k : String)
    (o o' : Nat) :
    subFuncBindings (pySet d k (SubValue.parentRef o)) =
      subFuncBindings (pySet d k (SubValue.parentRef o')) := by
  induction d with
  | nil => simp [pySet, subFuncBindings]
  | cons p rest ih =>
    obtain ⟨k0, v0⟩ := p
    by_cases h : k0 = k
    · simp [pySet, h, subFuncBindings]
    · have ih' := ih
      simp only [subFuncBindings] at ih'
      simp only [pySet, if_neg h, subFuncBindings, List.filterMap_cons]
      rw [ih']

/-- Helper: the `relative` attribute of an assembled collector is the
child object built from the relative side table. -/
theorem relSubDict_mkFinal (st : Dict × RelTable) (oid : Nat) :
    relSubDict (mkFinal st oid) =
      some (PlanCollectorSub.init st.2 "relative" st.1 oid).dict := by
  simp [mkFinal, relSubDict, pyLookup_pySet]

/-- C8: constructing twice from the same tables (with the two distinct
object ids two allocations receive) yields two distinct objects whose
corresponding attributes, both direct ones and those under the
`relative` child, reference the same underlying module functions. -/
theorem c8_reconstruction_same_bindings (plansMod stubsMod : PyModule)
    (t1 t2 : List Entry) (nm : String) (oid oid' : Nat) (c c' : PlanCollector)
    (hne : oid ≠ oid')
    (h : PlanCollector.init plansMod stubsMod t1 t2 nm oid = .ok c)
    (h' : PlanCollector.init plansMod stubsMod t1 t2 nm oid' = .ok c') :
    c ≠ c' ∧
    funcBindings c.dict = funcBindings c'.dict ∧
    (relSubDict c).map subFuncBindings = (relSubDict c').map subFuncBindings := by
  obtain ⟨st1, st2, hr1, hr2, rfl⟩ := init_inversion plansMod stubsMod t1 t2 nm oid c h
  obtain ⟨st1', st2', hr1', hr2', rfl⟩ :=
    init_inversion plansMod stubsMod t1 t2 nm oid' c' h'
  have hst1 : st1 = st1' := by
    have := hr1.symm.trans hr1'
    exact Except.ok.inj this
  subst hst1
  have hst2 : st2 = st2' := by
    have := hr2.symm.trans hr2'
    exact Except.ok.inj this
  subst hst2
  refine ⟨?_, ?_, ?_⟩
  · intro hc
    exact hne (congrArg PlanCollector.oid hc)
  · simp only [mkFinal]
    exact funcBindings_pySet_sub st2.1 "relative" _ _
  · rw [relSubDict_mkFinal, relSubDict_mkFinal]
    simp only [PlanCollectorSub.init, Option.map_some']
    exact congrArg some (subFuncBindings_pySet_parentRef _ "parent" oid oid')

/-- Witness for C8 on the single-entry construction with ids 0 and 1. -/
theorem c8_reconstruction_same_bindings_witness :
    demoCollector 0 ≠ demoCollector 1 ∧
    funcBindings (demoCollector 0).dict = funcBindings (demoCollector 1).dict ∧
    (relSubDict (demoCollector 0)).map subFuncBindings =
      (relSubDict (demoCollector 1)).map subFuncBindings :=
  c8_reconstruction_same_bindings demoPlansModule demoStubsModule
    [("count", ["count"])] [] "plan" 0 1 (demoCollector 0) (demoCollector 1)
    (by decide) (demoCollector_init 0) (demoCollector_init 1)

/-- Counterexample for C9: an entry whose first alias is the literal
string `parent` gives the collector itself a `parent` attribute (bound
to a function), so the collector does not "never have a parent
attribute". -/
theorem c9_counterexample :
    (PlanCollector.init demoPlansModule demoStubsModule [("scan", ["parent"])] []
        "plan" 0).map (fun c => pyLookup c.dict "parent") =
      .ok (some (Value.func { module := .plans, fname := "scan", doc := "Plan doc." })) := by
  decide

/-- C9 as amended: the `relative` attribute of every constructed
collector is a `PlanCollectorSub` whose `parent` attribute references
that very collector, and whose `name` attribute is the collector name
followed by `_relative` provided no entry rebinds the `name` attribute
(no first alias is the literal string `name`); the collector has no
`parent` attribute provided no first alias is the literal string
`parent` - both provisos hold for the shipped tables. -/
theorem c9_amended_relative_child (plansMod stubsMod : PyModule) (t1 t2 : List Entry)
    (nm : String) (oid : Nat) (c : PlanCollector)
    (h : PlanCollector.init plansMod stubsMod t1 t2 nm oid = .ok c) :
    (∃ s : PlanCollectorSub,
      pyLookup c.dict "relative" = some (Value.sub s) ∧
      pyLookup s.dict "parent" = some (SubValue.parentRef c.oid) ∧
      ("name" ∉ stubDirectKeys t2 → "name" ∉ planDirectKeys t1 →
        pyLookup s.dict "name" = some (SubValue.str (nm ++ "_relative")))) ∧
    ("parent" ∉ stubDirectKeys t2 → "parent" ∉ planDirectKeys t1 →
      pyLookup c.dict "parent" = none) := by
  obtain ⟨st1, st2, hr1, hr2, rfl⟩ := init_inversion plansMod stubsMod t1 t2 nm oid c h
  constructor
  · refine ⟨PlanCollectorSub.init st2.2 "relative" st2.1 oid, ?_, ?_, ?_⟩
    · simp [mkFinal, pyLookup_pySet]
    · simp [PlanCollectorSub.init, pyLookup_pySet, mkFinal]
    · intro hn2 hn1
      have hname : pyLookup st2.1 "name" = some (Value.str nm) := by
        rw [runPlans_lookup plansMod t1 st1 st2 hr2 "name" hn1,
          runStubs_lookup stubsMod t2 ([("name", Value.str nm)], []) st1 hr1 "name" hn2]
        simp [pyLookup]
      have harr : ("_" ++ "relative" : String) = "_relative" := rfl
      simp [PlanCollectorSub.init, pyLookup_pySet, parentNameString, hname,
        formatValue, String.append_assoc, harr]
  · intro hp2 hp1
    simp only [mkFinal]
    rw [pyLookup_pySet]
    rw [if_neg (by decide : ¬(("relative" : String) = "parent"))]
    rw [runPlans_lookup plansMod t1 st1 st2 hr2 "parent" hp1,
      runStubs_lookup stubsMod t2 ([("name", Value.str nm)], []) st1 hr1 "parent" hp2]
    simp [pyLookup]

/-- Witness for C9 as amended, on the single-entry construction. -/
theorem c9_amended_relative_child_witness :
    (∃ s : PlanCollectorSub,
      pyLookup (demoCollector 0).dict "relative" = some (Value.sub s) ∧
      pyLookup s.dict "parent" = some (SubValue.parentRef (demoCollector 0).oid) ∧
      ("name" ∉ stubDirectKeys [] → "name" ∉ planDirectKeys [("count", ["count"])] →
        pyLookup s.dict "name" = some (SubValue.str ("plan" ++ "_relative")))) ∧
    ("parent" ∉ stubDirectKeys [] → "parent" ∉ planDirectKeys [("count", ["count"])] →
      pyLookup (demoCollector 0).dict "parent" = none) :=
  c9_amended_relative_child demoPlansModule demoStubsModule [("count", ["count"])] []
    "plan" 0 (demoCollector 0) (demoCollector_init 0)

/-- C10: plan stubs are processed before plans, so when a relative
plan-stub entry and a relative plan entry derive the same stripped
alias, the `relative` child binds that alias to the plan function (the
later plan entry overwrote the earlier stub entry), and holds exactly
one binding for it, not two. -/
theorem c10_plan_overwrites_stub (plansMod stubsMod : PyModule) (s p : String)
    (sa pa : List String) (sa0 pa0 n ds dp nm : String) (oid : Nat)
    (hs : stubsMod s = some ds) (hp : plansMod p = some dp)
    (hsrel : stubIsRelative s = true) (hprel : planIsRelative p = true)
    (hsa : pyIndex sa 0 = .ok sa0) (hpa : pyIndex pa 0 = .ok pa0)
    (hss : splitRest sa0 = .ok n) (hps : splitRest pa0 = .ok n)
    (hn1 : n ≠ "name") (hn2 : n ≠ "parent") :
    (PlanCollector.init plansMod stubsMod [(p, pa)] [(s, sa)] nm oid).map
        (fun c => ((relSubDict c).map (fun d =>
          (pyLookup d n, (d.filter (fun q => q.1 = n)).length)))) =
      .ok (some (some (SubValue.func { module := .plans, fname := p, doc := dp }), 1)) := by
  simp [PlanCollector.init, runStubs, runPlans, stubStep, planStep, hsrel, hprel,
    hsa, hpa, hss, hps, getattrF, hs, hp, pySet, mkFinal, PlanCollectorSub.init,
    setMethods, parentNameString, pyLookup, formatValue, relSubDict, pyLookup_pySet,
    hn1, hn2, Ne.symm hn1, Ne.symm hn2, List.filter, Except.map]

/-- Witness for C10: the stub `mvr` and a hypothetical relative plan
`rel_move` both strip to `move`; the child ends up holding the plan
function once. -/
theorem c10_plan_overwrites_stub_witness :
    (PlanCollector.init (fun q => if q = "rel_move" then some "Plan move doc." else none)
        demoStubsModule [("rel_move", ["relative_move"])]
        [("mvr", ["relative_move", "mv"])] "plan" 0).map
        (fun c => ((relSubDict c).map (fun d =>
          (pyLookup d "move", (d.filter (fun q => q.1 = "move")).length)))) =
      .ok (some (some (SubValue.func
        { module := .plans, fname := "rel_move", doc := "Plan move doc." }), 1)) :=
  c10_plan_overwrites_stub (fun q => if q = "rel_move" then some "Plan move doc." else none)
    demoStubsModule "mvr" "rel_move" ["relative_move", "mv"] ["relative_move"]
    "relative_move" "relative_move" "move" "Stub doc." "Plan move doc." "plan" 0
    (by decide) (by decide) (by decide) (by decide) (by decide) (by decide)
    (by decide) (by decide) (by decide) (by decide)
